import Mathlib

/-!
Verification development for the ONNX-to-rten model converter
(`tools/convert-onnx.py`).  The Python source is shallowly embedded:

* numpy arrays become `NDArray` records holding a dtype tag, a shape and a
  flat element list (`PyNum` elements; `float` payloads are carried as exact
  rationals since no claim depends on floating-point rounding);
* Python exceptions become an explicit `ConvError` sum threaded through
  `Except`;
* the process-wide deduplicated warning set (`EMITTED_WARNINGS` plus the
  stderr stream) becomes a `WarnState` value threaded explicitly; warning
  strings become the injective inductive `Msg` (the source formats each
  message from distinct literal templates, so distinct constructors model
  distinct strings);
* mutation of the in-progress graph becomes explicit `GraphState` passing.

The FlatBuffers module `schema_generated` (`sg`) and the `onnx` / `numpy`
libraries are external collaborators of the repository; their interfaces are
modelled at the boundary exactly as the converter uses them.
-/

/-- Python numeric scalars as stored in numpy arrays and attributes.
`f` carries the float payload as an exact rational: the converter never
performs float arithmetic, it only moves the values around. -/
inductive PyNum where
  | i (v : Int)
  | f (v : Rat)
deriving DecidableEq, Repr

/-- numpy dtypes that can reach the converter. -/
inductive DType where
  | float32
  | int32
  | int64
  | int8
  | int16
  | boolDT
  | float64
  | float16
deriving DecidableEq, Repr

/-- `numpy.dtype.name` for each modelled dtype. -/
def DType.name : DType → String
  | .float32 => "float32"
  | .int32 => "int32"
  | .int64 => "int64"
  | .int8 => "int8"
  | .int16 => "int16"
  | .boolDT => "bool"
  | .float64 => "float64"
  | .float16 => "float16"

/-- A numpy array: dtype tag, shape, and the flattened element buffer.
`size` (total element count) is the length of the flat buffer. -/
structure NDArray where
  dtype : DType
  shape : List Nat
  data : List PyNum
deriving DecidableEq, Repr

def NDArray.size (a : NDArray) : Nat := a.data.length

/-- Python `len(array)`: the first dimension, a `TypeError` on a 0-d array. -/
inductive LenResult where
  | ok (n : Nat)
  | typeError
deriving DecidableEq, Repr

def NDArray.len : NDArray → LenResult
  | ⟨_, [], _⟩ => .typeError
  | ⟨_, k :: _, _⟩ => .ok k

def I32_MAX : Int := 2147483647
def I32_MIN : Int := -2147483648

/-- `np.clip(i32.min, i32.max)` on one element; float elements are untouched
(int64 arrays only ever hold `i` elements). -/
def clampI32 : PyNum → PyNum
  | .i v => .i (max I32_MIN (min I32_MAX v))
  | .f v => .f v

/-- The mask `np.logical_or(data > i32.max, data < i32.min)` per element. -/
def outOfRangeI32 : PyNum → Bool
  | .i v => v > I32_MAX || v < I32_MIN
  | .f _ => false

/-- `astype(np.int32)` wrap-around for a Python int that may exceed 32 bits. -/
def wrap32 (v : Int) : Int := (v + 2 ^ 31) % 2 ^ 32 - 2 ^ 31

/-- `numpy` retag used by the widening branches: values are unchanged. -/
def NDArray.astypeI32 (a : NDArray) : NDArray := { a with dtype := .int32 }

/-- `data.clip(i32.min, i32.max).astype(np.int32)` for the int64 branch. -/
def NDArray.clipAstypeI32 (a : NDArray) : NDArray :=
  { dtype := .int32, shape := a.shape, data := a.data.map clampI32 }

/-- `onnx.TensorProto`: name, dims, element type and the raw elements. -/
structure TensorProto where
  name : String
  dims : List Nat
  dtype : DType
  raw : List PyNum
deriving DecidableEq, Repr

instance : Inhabited TensorProto := ⟨⟨"", [], .float32, []⟩⟩

/-- `onnx.numpy_helper.to_array`: reshape the raw buffer to the declared
dims.  (For protos whose element count disagrees with the dims, numpy would
fail while reshaping; the model lets the `ConstantNode` shape check report
the mismatch instead — both are per-item conversion failures.) -/
def to_array (t : TensorProto) : NDArray := ⟨t.dtype, t.dims, t.raw⟩

/-- All errors the converter can raise.  Each constructor corresponds to one
`raise` site in the source; the spec's taxonomy names are noted. -/
inductive ConvError where
  /-- `ConstantNode.__init__` shape/data mismatch (spec: ShapeMismatch). -/
  | shapeMismatch (shape : List Nat) (dataLen : Nat) (name : String)
  /-- `ConstantNode.__init__` dtype check (unsupported data type). -/
  | unsupportedDType (name : String) (dtypeName : String)
  /-- `get_attr` declared-type mismatch (spec: AttributeTypeMismatch). -/
  | attributeTypeMismatch (attrName : String)
  /-- `value_fields[type_code]` lookup failure (Python KeyError). -/
  | keyError
  /-- `require_attr` absence (spec: MissingRequiredAttribute). -/
  | missingRequiredAttribute (name : String)
  /-- `get_enum_attr` no variant under either spelling (spec:
  UnsupportedEnumValue). -/
  | unsupportedEnumValue (val : String) (attrName : String)
  /-- Python IndexError from `word[0]` on an empty word in
  `snake_case_to_pascal_case`. -/
  | indexError
  /-- `generate_input_from_attr` attribute/input conflict (spec:
  ConflictingAttributeAndInput). -/
  | conflictingAttributeAndInput (attrName : String) (inputIndex : Nat)
  /-- `generate_input_from_attr` unsupported attribute type for promotion. -/
  | cannotGenerateInput (attrName : String)
  /-- `check_attr` non-default value (spec: UnsupportedAttributeValue). -/
  | unsupportedAttributeValue (name : String)
  /-- `check_ints_length` / pads / strides / dilations length checks (spec:
  InvalidAttributeLength). -/
  | invalidAttributeLength (name : String)
  /-- `read_pads` unsupported `auto_pad` (spec: UnsupportedPadMode). -/
  | unsupportedPadMode (val : String)
  /-- "Expected ConstantOfShape value to be a 1-element tensor" (spec:
  InvalidScalarShape). -/
  | invalidScalarShape
  /-- Python TypeError: `len()` of unsized (0-d) numpy array. -/
  | lenOfUnsizedObject
  /-- Python ValueError from `ndarray.item()` on an array of size ≠ 1. -/
  | itemSizeError (size : Nat)
  /-- "Unsupported value type ... for ConstantOfShape". -/
  | unsupportedScalarValueType (dtypeName : String)
  /-- "Unsupported target type for cast". -/
  | unsupportedCastTarget (target : Int)
  /-- Unsupported tensor dtype in the normalizer (spec:
  UnsupportedTensorType). -/
  | unsupportedTensorType (dtypeName : String) (opName : Option String)
  /-- "Unsupported operator" — `op_type` missing from `sg.OperatorType`
  (spec: UnsupportedOperator). -/
  | unsupportedOperator (opType : String)
  /-- `add_node` name collision (spec: DuplicateNodeName). -/
  | duplicateNodeName (name : String)
  /-- Unresolvable operator input name (spec: UnknownReference). -/
  | unknownInput (name : String) (opName : String)
  /-- Unresolvable operator output name (spec: UnknownReference). -/
  | unknownOutput (name : String) (opName : String)
  /-- `constant_node_from_onnx_constant_op`: operator has no outputs. -/
  | noOutputs (opName : String)
  /-- Python KeyError resolving the model's declared inputs/outputs. -/
  | unknownGraphIoName (name : String)
  /-- Phase-failure `ValueError` carrying the error count (spec:
  ConversionFailed). -/
  | conversionFailed (count : Nat)
  /-- `build_constant_node` unsupported data array type. -/
  | unsupportedDataArrayType (dtypeName : String)
  /-- `getattr(sg.OperatorType, ...)` failure while serializing. -/
  | attributeErrorOperatorType (opType : String)
deriving DecidableEq, Repr

/-- Warning messages.  Each constructor is one literal format string of the
source, applied to its interpolated values, so equality of `Msg` values
models equality of the emitted strings. -/
inductive Msg where
  /-- "Clamping out-of-range tensor value {val} to [{i32.min}, {i32.max}]" -/
  | clamp (v : PyNum)
  /-- "Error converting initializer: {ex}" -/
  | initializerError (e : ConvError)
  /-- "Error converting \"Constant\" operator: {ex}" -/
  | constantOpError (e : ConvError)
  /-- "WARNING: Unsupported attribute {attr.name} for operator {op_type}" -/
  | unhandledAttr (attrName : String) (opType : String)
  /-- "Error converting {op_type} operator {op.name}: {ex}" (plain print) -/
  | operatorError (opType : String) (opName : String) (e : ConvError)
deriving DecidableEq, Repr

/-- The process-wide warning channel: `EMITTED_WARNINGS` plus the ordered
stderr output. -/
structure WarnState where
  emitted : List Msg
  log : List Msg
deriving DecidableEq, Repr

def WarnState.empty : WarnState := ⟨[], []⟩

/-- `warn_once`: emit unless already emitted. -/
def warn_once (m : Msg) (w : WarnState) : WarnState :=
  if m ∈ w.emitted then w else ⟨m :: w.emitted, w.log ++ [m]⟩

/-- A plain `print(..., file=sys.stderr)`, not deduplicated. -/
def print_err (m : Msg) (w : WarnState) : WarnState :=
  { w with log := w.log ++ [m] }

/-- `np.prod` of a shape list (`np.prod([]) = 1`). -/
def prodNat (l : List Nat) : Nat := l.foldl (· * ·) 1

/-- `ConstantNode`: a constant graph node (weights, biases, ...). -/
structure ConstantNode where
  name : String
  shape : List Nat
  data : NDArray
deriving DecidableEq, Repr

/-- `ConstantNode.__init__`: stores the fields, then checks
`np.prod(shape) == data.size`, then checks the dtype is serializable. -/
def ConstantNode.init (name : String) (shape : List Nat) (data : NDArray) :
    Except ConvError ConstantNode :=
  if prodNat shape ≠ data.size then
    .error (.shapeMismatch shape data.size name)
  else
    match data.dtype with
    | .float32 | .int32 => .ok ⟨name, shape, data⟩
    | d => .error (.unsupportedDType name d.name)

/-- Symbolic or fixed dimension of a `ValueNode` shape. -/
inductive Dim where
  | sym (name : String)
  | fixed (value : Int)
deriving DecidableEq, Repr

/-- `ValueNode`: a placeholder for an operator input/output. -/
structure ValueNode where
  name : String
  shape : Option (List Dim)
deriving DecidableEq, Repr

/-- The warning loop of the int64 branch of the normalizer:
`for val in data[out_of_range_mask]: warn_once(...)`. -/
def warn_clamps (vals : List PyNum) (w : WarnState) : WarnState :=
  vals.foldl (fun w v => warn_once (.clamp v) w) w

/-- `constant_node_from_onnx_initializer`: normalize a source tensor's dtype
and build a `ConstantNode`.  Returns the (possibly failed) construction
together with the warning state (warnings precede any failure, as in the
source where they are global effects). -/
def constant_node_from_onnx_initializer (t : TensorProto) (opName : Option String)
    (w : WarnState) : Except ConvError ConstantNode × WarnState :=
  let data := to_array t
  match data.dtype with
  | .float32 | .int32 =>
      (ConstantNode.init t.name t.dims data, w)
  | .boolDT | .int8 | .int16 =>
      (ConstantNode.init t.name t.dims data.astypeI32, w)
  | .int64 =>
      let w := warn_clamps (data.data.filter outOfRangeI32) w
      (ConstantNode.init t.name t.dims data.clipAstypeI32, w)
  | d =>
      (.error (.unsupportedTensorType d.name opName), w)

/-- ONNX attribute type codes (the `onnx.AttributeProto.*` constants the
converter uses through `value_fields` and `get_attr`). -/
inductive AttrType where
  | float
  | int
  | ints
  | string
  | tensor
  | floats
  | strings
deriving DecidableEq, Repr

/-- Attribute payloads.  String values arrive as bytes in ONNX and are
decoded by `get_attr`; the model carries them as `String` directly. -/
inductive AttrValue where
  | f (v : Rat)
  | i (v : Int)
  | ints (v : List Int)
  | s (v : String)
  | t (v : TensorProto)
  | floats (v : List Rat)
  | strings (v : List String)
deriving DecidableEq, Repr

/-- The declared type tag of an attribute (consistent protos carry the value
in the field matching their tag, which is how `onnx` materializes them). -/
def AttrValue.type : AttrValue → AttrType
  | .f _ => .float
  | .i _ => .int
  | .ints _ => .ints
  | .s _ => .string
  | .t _ => .tensor
  | .floats _ => .floats
  | .strings _ => .strings

/-- `value_fields`: which attribute types have a mapped value field.  FLOATS
and STRINGS are absent from the source dict, so reading a present attribute
of those types raises a KeyError. -/
def value_fields : AttrType → Bool
  | .float | .int | .ints | .string | .tensor => true
  | .floats | .strings => false

/-- Projections used at call sites after `get_attr` has checked the type
(the fallback values are unreachable behind those checks). -/
def AttrValue.asInt : AttrValue → Int
  | .i v => v
  | _ => 0

def AttrValue.asRat : AttrValue → Rat
  | .f v => v
  | _ => 0

def AttrValue.asInts : AttrValue → List Int
  | .ints v => v
  | _ => []

def AttrValue.asString : AttrValue → String
  | .s v => v
  | _ => ""

def AttrValue.asTensor : AttrValue → TensorProto
  | .t v => v
  | _ => default

/-- Python int truthiness, for `bool(op_reader.get_attr(...))`. -/
def pyBool (v : Int) : Bool := v != 0

/-- `onnx.AttributeProto`. -/
structure AttributeProto where
  name : String
  value : AttrValue
deriving DecidableEq, Repr

/-- `onnx.OperatorProto` (a node of the source graph).  The repeated
`attribute` field is called `attrList` here because `attribute` is a Lean
keyword. -/
structure OnnxOp where
  name : String
  op_type : String
  input : List String
  output : List String
  attrList : List AttributeProto
deriving DecidableEq, Repr

/-- `onnx.TensorShapeProto.Dimension`. -/
structure DimProto where
  dim_param : String
  dim_value : Int
deriving DecidableEq, Repr

/-- `onnx.ValueInfoProto`, exposing the dimension list the converter reads
from `value.type.tensor_type.shape.dim`. -/
structure ValueInfoProto where
  name : String
  dim : List DimProto
deriving DecidableEq, Repr

/-- `onnx.GraphProto`. -/
structure OnnxGraph where
  initializer : List TensorProto
  node : List OnnxOp
  input : List ValueInfoProto
  output : List ValueInfoProto
deriving DecidableEq, Repr

/-- Python `s.split("_")`, written as structural recursion over the
character list (`"".split("_") == [""]`, separators at the ends or doubled
produce empty words — the same semantics as `str.split` with an explicit
single-character separator). -/
def py_split_und : List Char → List Char → List String
  | [], acc => [⟨acc.reverse⟩]
  | c :: cs, acc =>
      if c = '_' then ⟨acc.reverse⟩ :: py_split_und cs []
      else py_split_und cs (c :: acc)

/-- `snake_case_to_pascal_case`: `word[0].upper() + word[1:]` over the
underscore-split words.  `word[0]` on an empty word (empty string, leading,
trailing or doubled underscore) raises an IndexError. -/
def capitalize_word (w : String) : Except ConvError String :=
  match w.data with
  | [] => .error .indexError
  | c :: cs => .ok ⟨c.toUpper :: cs⟩

def snake_case_to_pascal_case (s : String) : Except ConvError String := do
  let words ← (py_split_und s.data []).mapM capitalize_word
  return String.join words

/-- Scalar attribute records of the target schema (`sg.FloatScalarT`,
`sg.IntScalarT`). -/
inductive ScalarT where
  | FloatScalarT (value : PyNum)
  | IntScalarT (value : PyNum)
deriving DecidableEq, Repr

/- Constants and enum member tables of the generated FlatBuffers module
`schema_generated` (`sg`).  Modelled from the spec: the module itself is a
code-generated external collaborator ("the binary schema's low-level ...
serialization library"); only the member names the converter relies on
matter, and enum objects are modelled as name → value tables probed the way
`getattr` probes class attributes. -/
namespace sg

def PadMode_Same : Int := 0
def PadMode_Fixed : Int := 1

def DataType_Int32 : Int := 0
def DataType_Float : Int := 1

def Scalar_IntScalar : Int := 1
def Scalar_FloatScalar : Int := 2

def RNNDirection : List (String × Int) :=
  [("Forward", 0), ("Reverse", 1), ("Bidirectional", 2)]

def ResizeMode : List (String × Int) := [("Nearest", 0), ("Linear", 1)]

def CoordTransformMode : List (String × Int) :=
  [("HalfPixel", 0), ("Asymmetric", 1), ("AlignCorners", 2),
   ("PytorchHalfPixel", 3)]

def NearestMode : List (String × Int) :=
  [("Floor", 0), ("Ceil", 1), ("RoundPreferFloor", 2), ("RoundPreferCeil", 3)]

def ScatterReduction : List (String × Int) :=
  [("None_", 0), ("Add", 1), ("Mul", 2), ("Min", 3), ("Max", 4)]

/-- Operator names declared by the target schema (`hasattr(sg.OperatorType,
op_type)` probes this set). -/
def OperatorType : List String :=
  ["Abs", "Add", "And", "ArgMax", "ArgMin", "AveragePool",
   "BatchNormalization", "Cast", "Ceil", "Clip", "Concat", "ConstantOfShape",
   "Conv", "ConvTranspose", "Cos", "CumSum", "Div", "Equal", "Erf", "Exp",
   "Expand", "Flatten", "Floor", "Gather", "Gemm", "GlobalAveragePool",
   "Greater", "GreaterOrEqual", "GRU", "HardSigmoid", "Identity",
   "InstanceNormalization", "LeakyRelu", "Less", "LessOrEqual", "Log",
   "LogSoftmax", "LSTM", "MatMul", "MaxPool", "Mod", "Mul", "Neg",
   "NonZero", "Not", "OneHot", "Or", "Pad", "Pow", "Range", "Reciprocal",
   "ReduceL2", "ReduceMax", "ReduceMean", "ReduceMin", "ReduceProd",
   "ReduceSum", "Relu", "Reshape", "Resize", "ScatterElements", "ScatterND",
   "Shape", "Sigmoid", "Sin", "Slice", "Softmax", "Split", "Sqrt", "Squeeze",
   "Sub", "Tanh", "Tile", "TopK", "Transpose", "Trilu", "Unsqueeze", "Where",
   "Xor"]

end sg

/-- `onnx.TensorProto.DataType` codes used by the `Cast` translation. -/
def TPDataType_FLOAT : Int := 1
def TPDataType_INT32 : Int := 6
def TPDataType_INT64 : Int := 7
def TPDataType_BOOL : Int := 9


/-- Operator attribute records (`sg.<Op>AttrsT` objects filled by the
translation; fields mirror the attributes each case assigns, `Option` where
a field may be left at its `None` default). -/
inductive Attrs where
  | ArgMaxAttrs (axes : Option Int) (keepDims : Bool)
  | AveragePoolAttrs (kernelSize : List Int) (pads : Option (List Int))
      (padMode : Int) (strides : List Int)
  | BatchNormalizationAttrs (epsilon : Rat)
  | CastAttrs (toType : Int)
  | ConcatAttrs (axis : Int)
  | ConstantOfShapeAttrs (valueType : Int) (value : ScalarT)
  | ConvAttrs (dilations : List Int) (groups : Int) (padMode : Int)
      (pads : Option (List Int)) (strides : List Int)
  | ConvTransposeAttrs (strides : List Int)
  | FlattenAttrs (axis : Int)
  | GatherAttrs (axis : Int)
  | GemmAttrs (alpha : Rat) (beta : Rat) (transposeA : Bool) (transposeB : Bool)
  | GRUAttrs (direction : Int) (hiddenSize : Int) (linearBeforeReset : Bool)
  | HardSigmoidAttrs (alpha : Rat) (beta : Rat)
  | LeakyReluAttrs (alpha : Rat)
  | LSTMAttrs (direction : Int) (hiddenSize : Int)
  | MaxPoolAttrs (kernelSize : List Int) (padMode : Int)
      (pads : Option (List Int)) (strides : List Int)
  | ModAttrs (fmod : Bool)
  | OneHotAttrs (axis : Int)
  | ReduceMeanAttrs (axes : Option (List Int)) (keepDims : Bool)
  | ReshapeAttrs (allowZero : Bool)
  | ResizeAttrs (mode : Int) (coordMode : Int) (nearestMode : Int)
  | ScatterElementsAttrs (axis : Int) (reduction : Int)
  | ScatterNDAttrs (reduction : Int)
  | SoftmaxAttrs (axis : Int)
  | SplitAttrs (axis : Int)
  | TopKAttrs (axis : Int) (largest : Bool) (sorted : Bool)
  | TransposeAttrs (perm : List Int)
  | TriluAttrs (upper : Bool)
deriving DecidableEq, Repr

/-- `operator.attrs.__class__.__name__[:-1]`, the `sg.OperatorAttrs` union
member name used by the serializer. -/
def Attrs.className : Attrs → String
  | .ArgMaxAttrs .. => "ArgMaxAttrs"
  | .AveragePoolAttrs .. => "AveragePoolAttrs"
  | .BatchNormalizationAttrs .. => "BatchNormalizationAttrs"
  | .CastAttrs .. => "CastAttrs"
  | .ConcatAttrs .. => "ConcatAttrs"
  | .ConstantOfShapeAttrs .. => "ConstantOfShapeAttrs"
  | .ConvAttrs .. => "ConvAttrs"
  | .ConvTransposeAttrs .. => "ConvTransposeAttrs"
  | .FlattenAttrs .. => "FlattenAttrs"
  | .GatherAttrs .. => "GatherAttrs"
  | .GemmAttrs .. => "GemmAttrs"
  | .GRUAttrs .. => "GRUAttrs"
  | .HardSigmoidAttrs .. => "HardSigmoidAttrs"
  | .LeakyReluAttrs .. => "LeakyReluAttrs"
  | .LSTMAttrs .. => "LSTMAttrs"
  | .MaxPoolAttrs .. => "MaxPoolAttrs"
  | .ModAttrs .. => "ModAttrs"
  | .OneHotAttrs .. => "OneHotAttrs"
  | .ReduceMeanAttrs .. => "ReduceMeanAttrs"
  | .ReshapeAttrs .. => "ReshapeAttrs"
  | .ResizeAttrs .. => "ResizeAttrs"
  | .ScatterElementsAttrs .. => "ScatterElementsAttrs"
  | .ScatterNDAttrs .. => "ScatterNDAttrs"
  | .SoftmaxAttrs .. => "SoftmaxAttrs"
  | .SplitAttrs .. => "SplitAttrs"
  | .TopKAttrs .. => "TopKAttrs"
  | .TransposeAttrs .. => "TransposeAttrs"
  | .TriluAttrs .. => "TriluAttrs"

/-- `OperatorNode`: an operator graph node. -/
structure OperatorNode where
  name : String
  op_type : String
  attrs : Option Attrs
  inputs : List (Option Nat)
  outputs : List (Option Nat)
deriving DecidableEq, Repr

/-- The graph node variants (`Node` base class with its three subclasses). -/
inductive Node where
  | constant (c : ConstantNode)
  | value (v : ValueNode)
  | operator (o : OperatorNode)
deriving DecidableEq, Repr

def Node.name : Node → String
  | .constant c => c.name
  | .value v => v.name
  | .operator o => o.name

/-- The finished `Graph`. -/
structure Graph where
  nodes : List Node
  inputs : List Nat
  outputs : List Nat
deriving DecidableEq, Repr

/-- The in-progress state of `graph_from_onnx_graph`: the node list, the
name → index `tensor_map`, and the name → node `constant_map` (dicts are
modelled as association lists; names are unique by the `add_node` guard, and
new bindings are consed to the front as the most recent). -/
structure GraphState where
  nodes : List Node
  tensor_map : List (String × Nat)
  constant_map : List (String × ConstantNode)
deriving DecidableEq, Repr

def GraphState.empty : GraphState := ⟨[], [], []⟩

/-- `add_node` (the closure inside `graph_from_onnx_graph`): reject a
duplicate name, record constants in `constant_map`, append the node and map
its name to its index. -/
def add_node (g : GraphState) (node : Node) : Except ConvError (Nat × GraphState) :=
  if (g.tensor_map.lookup node.name).isSome then
    .error (.duplicateNodeName node.name)
  else
    let constant_map :=
      match node with
      | .constant c => (c.name, c) :: g.constant_map
      | _ => g.constant_map
    let nodes := g.nodes ++ [node]
    let node_index := nodes.length - 1
    .ok (node_index, ⟨nodes, (node.name, node_index) :: g.tensor_map, constant_map⟩)

/-- `ONNXOperatorReader`: the per-operator attribute reader.  The `add_node`
callback of the source is not stored; the reader operations that use it take
and return the `GraphState` explicitly instead. -/
structure ONNXOperatorReader where
  onnx_op : OnnxOp
  input_indexes : List (Option Nat)
  handled : List String
deriving DecidableEq, Repr

/-- The attribute search loop shared by the readers: the first attribute
with a matching name, then the declared-type check, then the
`value_fields[type_code]` field access. -/
def find_attr_value (op : OnnxOp) (name : String) (expected : AttrType) :
    Except ConvError (Option AttrValue) :=
  match op.attrList.find? (fun a => a.name == name) with
  | some a =>
      if a.value.type ≠ expected then .error (.attributeTypeMismatch name)
      else if value_fields expected then .ok (some a.value)
      else .error .keyError
  | none => .ok none

/-- `get_attr`: optional attribute read; marks the name handled regardless
of presence, returns `dflt` when absent. -/
def ONNXOperatorReader.get_attr (r : ONNXOperatorReader) (name : String)
    (expected : AttrType) (dflt : Option AttrValue) :
    Except ConvError (Option AttrValue × ONNXOperatorReader) := do
  let r := { r with handled := name :: r.handled }
  match ← find_attr_value r.onnx_op name expected with
  | some v => .ok (some v, r)
  | none => .ok (dflt, r)

/-- `get_enum_attr`: Pascal-case the string value and probe the enum table,
falling back to the keyword-escaped spelling with a trailing underscore. -/
def ONNXOperatorReader.get_enum_attr (r : ONNXOperatorReader) (name : String)
    (enum : List (String × Int)) (dflt : String) :
    Except ConvError (Int × ONNXOperatorReader) := do
  let (v, r) ← r.get_attr name .string (some (.s dflt))
  let val := (v.getD (.s dflt)).asString
  let pascal_case ← snake_case_to_pascal_case val
  match enum.lookup pascal_case with
  | some c => .ok (c, r)
  | none =>
      match enum.lookup (pascal_case ++ "_") with
      | some c => .ok (c, r)
      | none => .error (.unsupportedEnumValue val name)

/-- `ignore_attr`. -/
def ONNXOperatorReader.ignore_attr (r : ONNXOperatorReader) (name : String) :
    ONNXOperatorReader :=
  { r with handled := name :: r.handled }

/-- `require_attr`. -/
def ONNXOperatorReader.require_attr (r : ONNXOperatorReader) (name : String)
    (expected : AttrType) : Except ConvError (AttrValue × ONNXOperatorReader) := do
  let (v, r) ← r.get_attr name expected none
  match v with
  | none => .error (.missingRequiredAttribute name)
  | some v => .ok (v, r)

/-- `check_attr`: reject a present attribute whose value is outside the
allowed set (the source's `default`-or-tuple is modelled as a list). -/
def ONNXOperatorReader.check_attr (r : ONNXOperatorReader) (name : String)
    (expected : AttrType) (allowed : List AttrValue) :
    Except ConvError ONNXOperatorReader := do
  let (v, r) ← r.get_attr name expected none
  match v with
  | none => .ok r
  | some v =>
      if v ∈ allowed then .ok r
      else .error (.unsupportedAttributeValue name)

/-- The `while len(self.input_indexes) < input_index + 1: append(None)`
padding loop. -/
def pad_to (l : List (Option Nat)) (n : Nat) : List (Option Nat) :=
  l ++ List.replicate (n - l.length) none

/-- `generate_input_from_attr`: promote an attribute (if present) to a
synthesized constant input at `input_index`. -/
def ONNXOperatorReader.generate_input_from_attr (r : ONNXOperatorReader)
    (input_index : Nat) (attr_name : String) (attr_type : AttrType)
    (g : GraphState) : Except ConvError (ONNXOperatorReader × GraphState) := do
  let (av, r) ← r.get_attr attr_name attr_type none
  match av with
  | none => .ok (r, g)
  | some attr_val =>
      if input_index < r.input_indexes.length then
        .error (.conflictingAttributeAndInput attr_name input_index)
      else do
        let (shape, data) ←
          match attr_type with
          | .int =>
              pure (([] : List Nat),
                (⟨.int32, [], [.i (wrap32 attr_val.asInt)]⟩ : NDArray))
          | .float =>
              pure (([] : List Nat),
                (⟨.float32, [], [.f attr_val.asRat]⟩ : NDArray))
          | .ints =>
              -- `np.array([attr_val])` has shape [1, n]; the node's shape is [n].
              pure (([attr_val.asInts.length] : List Nat),
                (⟨.int32, [1, attr_val.asInts.length],
                  attr_val.asInts.map (fun v => .i (wrap32 v))⟩ : NDArray))
          | _ => .error (.cannotGenerateInput attr_name)
        let generated_name := r.onnx_op.name ++ ":wasnn-" ++ attr_name
        let const_node ← ConstantNode.init generated_name shape data
        let (input_id, g) ← add_node g (.constant const_node)
        let padded := pad_to r.input_indexes (input_index + 1)
        .ok ({ r with input_indexes := padded.set input_index (some input_id) }, g)

/-- `unhandled_attrs`. -/
def ONNXOperatorReader.unhandled_attrs (r : ONNXOperatorReader) :
    List AttributeProto :=
  r.onnx_op.attrList.filter (fun a => ¬ a.name ∈ r.handled)

/-- `check_ints_length`. -/
def check_ints_length (name : String) (ints : List Int) (allowed_length : Nat) :
    Except ConvError Unit :=
  if ints.length ≠ allowed_length then .error (.invalidAttributeLength name)
  else .ok ()

/-- `read_pads`: the `auto_pad` / `pads` policy. -/
def read_pads (r : ONNXOperatorReader) :
    Except ConvError ((String × List Int) × ONNXOperatorReader) := do
  let (auto_pad, r) ← r.get_attr "auto_pad" .string (some (.s "NOTSET"))
  let auto_pad := (auto_pad.getD (.s "NOTSET")).asString
  if auto_pad = "SAME_UPPER" ∨ auto_pad = "SAME_LOWER" then
    .ok (("same", []), r)
  else if auto_pad = "NOTSET" then do
    let (pads, r) ← r.get_attr "pads" .ints (some (.ints [0, 0, 0, 0]))
    let pads := (pads.getD (.ints [0, 0, 0, 0])).asInts
    if pads.length ≠ 2 ∧ pads.length ≠ 4 then
      .error (.invalidAttributeLength "padding")
    else
      .ok (("fixed", pads), r)
  else
    .error (.unsupportedPadMode auto_pad)

/-- `read_strides`. -/
def read_strides (r : ONNXOperatorReader) :
    Except ConvError (List Int × ONNXOperatorReader) := do
  let (strides, r) ← r.get_attr "strides" .ints (some (.ints [1, 1]))
  let strides := (strides.getD (.ints [1, 1])).asInts
  if strides.length ≠ 1 ∧ strides.length ≠ 2 then
    .error (.invalidAttributeLength "strides")
  else
    .ok (strides, r)

/-- `read_dilations`. -/
def read_dilations (r : ONNXOperatorReader) :
    Except ConvError (List Int × ONNXOperatorReader) := do
  let (dilations, r) ← r.get_attr "dilations" .ints (some (.ints [1, 1]))
  let dilations := (dilations.getD (.ints [1, 1])).asInts
  if dilations.length ≠ 1 ∧ dilations.length ≠ 2 then
    .error (.invalidAttributeLength "dilations")
  else
    .ok (dilations, r)

/-- `constant_node_from_onnx_constant_op`: read the `value` tensor of a
`Constant` operator and rename the node to the operator's first output. -/
def constant_node_from_onnx_constant_op (op : OnnxOp) (w : WarnState) :
    Except ConvError ConstantNode × WarnState :=
  match op.output with
  | [] => (.error (.noOutputs op.name), w)
  | output_name :: _ =>
      let r : ONNXOperatorReader := ⟨op, [], []⟩
      match r.require_attr "value" .tensor with
      | .error e => (.error e, w)
      | .ok (v, _) =>
          match constant_node_from_onnx_initializer v.asTensor (some output_name) w with
          | (.error e, w) => (.error e, w)
          | (.ok const_node, w) => (.ok { const_node with name := output_name }, w)

/-- `value_node_from_onnx_value`: `dim_param or dim_value` per dimension, an
empty dimension list meaning an absent shape. -/
def value_node_from_onnx_value (value : ValueInfoProto) : ValueNode :=
  if value.dim ≠ [] then
    ⟨value.name,
     some (value.dim.map (fun d =>
       if d.dim_param ≠ "" then Dim.sym d.dim_param else Dim.fixed d.dim_value))⟩
  else
    ⟨value.name, none⟩

/-- The `match op_type:` block of `op_node_from_onnx_operator` — one branch
per supported source operator, consuming attributes in source order.
Branches that never touch the graph or the warning channel return `g`/`w`
unchanged on every path (matching the source, where only
`generate_input_from_attr` and the `ConstantOfShape` normalizer call have
such effects).  The result keeps the failed-or-succeeded translation
separate from the graph/warning state, which persists across a failure just
as the mutated globals do in Python. -/
def translate_op_attrs (op_type : String) (r : ONNXOperatorReader)
    (g : GraphState) (w : WarnState) :
    Except ConvError (Option Attrs × ONNXOperatorReader) × GraphState × WarnState :=
  match op_type with
  | "ArgMax" | "ArgMin" =>
      ((do
        let (axes, r) ← r.get_attr "axis" .int none
        let (kd, r) ← r.get_attr "keepdims" .int (some (.i 1))
        let r ← r.check_attr "select_last_index" .int [.i 0]
        pure (some (.ArgMaxAttrs (axes.map (·.asInt))
          (pyBool (kd.getD (.i 1)).asInt)), r)), g, w)
  | "AveragePool" =>
      ((do
        let (kernel_shape, r) ← r.require_attr "kernel_shape" .ints
        let kernel_shape := kernel_shape.asInts
        check_ints_length "kernel_shape" kernel_shape 2
        let ((pad_mode, pads), r) ← read_pads r
        let r ← r.check_attr "ceil_mode" .int [.i 0]
        let r ← r.check_attr "count_include_pad" .int [.i 0]
        let (strides, r) ← read_strides r
        pure (some (.AveragePoolAttrs kernel_shape
          (if pads ≠ [] then some pads else none)
          (if pad_mode = "same" then sg.PadMode_Same else sg.PadMode_Fixed)
          strides), r)), g, w)
  | "BatchNormalization" | "InstanceNormalization" =>
      ((do
        let (epsilon, r) ← r.get_attr "epsilon" .float (some (.f (1 / 100000)))
        pure (some (.BatchNormalizationAttrs
          (epsilon.getD (.f (1 / 100000))).asRat), r)), g, w)
  | "Cast" =>
      ((do
        let (toVal, r) ← r.get_attr "to" .int (some (.i TPDataType_FLOAT))
        let toVal := (toVal.getD (.i TPDataType_FLOAT)).asInt
        if toVal = TPDataType_FLOAT then
          pure (some (.CastAttrs sg.DataType_Float), r)
        else if toVal = TPDataType_BOOL ∨ toVal = TPDataType_INT32 ∨
            toVal = TPDataType_INT64 then
          pure (some (.CastAttrs sg.DataType_Int32), r)
        else
          .error (.unsupportedCastTarget toVal)), g, w)
  | "Clip" =>
      (match r.generate_input_from_attr 1 "min" .float g with
       | .error e => (.error e, g, w)
       | .ok (r, g) =>
           match r.generate_input_from_attr 2 "max" .float g with
           | .error e => (.error e, g, w)
           | .ok (r, g) => (.ok (none, r), g, w))
  | "Concat" =>
      ((do
        let (axis, r) ← r.require_attr "axis" .int
        pure (some (.ConcatAttrs axis.asInt), r)), g, w)
  | "ConstantOfShape" =>
      (match r.require_attr "value" .tensor with
       | .error e => (.error e, g, w)
       | .ok (v, r) =>
           match constant_node_from_onnx_initializer v.asTensor
               (some r.onnx_op.name) w with
           | (.error e, w) => (.error e, g, w)
           | (.ok const_node, w) =>
               match const_node.data.len with
               | .typeError => (.error .lenOfUnsizedObject, g, w)
               | .ok n =>
                   if n ≠ 1 then (.error .invalidScalarShape, g, w)
                   else if const_node.data.dtype = .float32 then
                     match const_node.data.data with
                     | [x] =>
                         (.ok (some (.ConstantOfShapeAttrs sg.Scalar_FloatScalar
                           (.FloatScalarT x)), r), g, w)
                     | other => (.error (.itemSizeError other.length), g, w)
                   else if const_node.data.dtype = .int32 then
                     match const_node.data.data with
                     | [x] =>
                         (.ok (some (.ConstantOfShapeAttrs sg.Scalar_IntScalar
                           (.IntScalarT x)), r), g, w)
                     | other => (.error (.itemSizeError other.length), g, w)
                   else
                     (.error (.unsupportedScalarValueType
                       const_node.data.dtype.name), g, w))
  | "Conv" =>
      ((do
        let (dilations, r) ← read_dilations r
        let (groups, r) ← r.get_attr "group" .int (some (.i 1))
        let ((pad_mode, pads), r) ← read_pads r
        let (strides, r) ← read_strides r
        let r := r.ignore_attr "kernel_shape"
        pure (some (.ConvAttrs dilations (groups.getD (.i 1)).asInt
          (if pad_mode = "same" then sg.PadMode_Same else sg.PadMode_Fixed)
          (if pad_mode = "same" then none else some pads)
          strides), r)), g, w)
  | "ConvTranspose" =>
      ((do
        let (strides, r) ← read_strides r
        let r ← r.check_attr "auto_pad" .string [.s "NOTSET"]
        let r ← r.check_attr "dilations" .ints [.ints [1], .ints [1, 1]]
        let r ← r.check_attr "group" .int [.i 1]
        let r := r.ignore_attr "kernel_shape"
        let r ← r.check_attr "output_padding" .ints [.ints [0, 0, 0, 0]]
        let r ← r.check_attr "pads" .ints [.ints [0, 0, 0, 0]]
        pure (some (.ConvTransposeAttrs strides), r)), g, w)
  | "CumSum" =>
      ((do
        let r ← r.check_attr "exclusive" .int [.i 0]
        let r ← r.check_attr "reverse" .int [.i 0]
        pure (none, r)), g, w)
  | "Flatten" =>
      ((do
        let (axis, r) ← r.get_attr "axis" .int (some (.i 1))
        pure (some (.FlattenAttrs (axis.getD (.i 1)).asInt), r)), g, w)
  | "Gather" =>
      ((do
        let (axis, r) ← r.get_attr "axis" .int (some (.i 0))
        pure (some (.GatherAttrs (axis.getD (.i 0)).asInt), r)), g, w)
  | "Gemm" =>
      ((do
        let (alpha, r) ← r.get_attr "alpha" .float (some (.f 1))
        let (beta, r) ← r.get_attr "beta" .float (some (.f 1))
        let (transA, r) ← r.get_attr "transA" .int (some (.i 0))
        let (transB, r) ← r.get_attr "transB" .int (some (.i 0))
        pure (some (.GemmAttrs (alpha.getD (.f 1)).asRat (beta.getD (.f 1)).asRat
          (pyBool (transA.getD (.i 0)).asInt)
          (pyBool (transB.getD (.i 0)).asInt)), r)), g, w)
  | "GRU" =>
      ((do
        let (direction, r) ← r.get_enum_attr "direction" sg.RNNDirection "forward"
        let (hidden_size, r) ← r.require_attr "hidden_size" .int
        let (lbr, r) ← r.get_attr "linear_before_reset" .int (some (.i 0))
        pure (some (.GRUAttrs direction hidden_size.asInt
          (pyBool (lbr.getD (.i 0)).asInt)), r)), g, w)
  | "HardSigmoid" =>
      ((do
        let (alpha, r) ← r.get_attr "alpha" .float (some (.f (1 / 5)))
        let (beta, r) ← r.get_attr "beta" .float (some (.f (1 / 2)))
        pure (some (.HardSigmoidAttrs (alpha.getD (.f (1 / 5))).asRat
          (beta.getD (.f (1 / 2))).asRat), r)), g, w)
  | "LeakyRelu" =>
      ((do
        let (alpha, r) ← r.get_attr "alpha" .float (some (.f (1 / 100)))
        pure (some (.LeakyReluAttrs (alpha.getD (.f (1 / 100))).asRat), r)), g, w)
  | "LogSoftmax" =>
      ((do
        let (axis, r) ← r.get_attr "axis" .int (some (.i 0))
        pure (some (.SoftmaxAttrs (axis.getD (.i 0)).asInt), r)), g, w)
  | "LSTM" =>
      ((do
        let (direction, r) ← r.get_enum_attr "direction" sg.RNNDirection "forward"
        let (hidden_size, r) ← r.require_attr "hidden_size" .int
        let r ← r.check_attr "activation_alpha" .floats [.floats []]
        let r ← r.check_attr "activation_beta" .floats [.floats []]
        let r ← r.check_attr "activations" .strings [.strings []]
        let r ← r.check_attr "clip" .float [.f 0]
        let r ← r.check_attr "input_forget" .int [.i 0]
        let r ← r.check_attr "layout" .int [.i 0]
        pure (some (.LSTMAttrs direction hidden_size.asInt), r)), g, w)
  | "MaxPool" =>
      ((do
        let (kernel_shape, r) ← r.require_attr "kernel_shape" .ints
        let kernel_shape := kernel_shape.asInts
        check_ints_length "kernel_shape" kernel_shape 2
        let ((pad_mode, pads), r) ← read_pads r
        let (strides, r) ← read_strides r
        let r ← r.check_attr "ceil_mode" .int [.i 0]
        let r ← r.check_attr "dilations" .ints [.ints [1], .ints [1, 1]]
        let r ← r.check_attr "storage_order" .int [.i 0]
        pure (some (.MaxPoolAttrs kernel_shape
          (if pad_mode = "same" then sg.PadMode_Same else sg.PadMode_Fixed)
          (if pad_mode = "same" then none else some pads)
          strides), r)), g, w)
  | "Mod" =>
      ((do
        let (fmod, r) ← r.get_attr "fmod" .int (some (.i 0))
        pure (some (.ModAttrs (pyBool (fmod.getD (.i 0)).asInt)), r)), g, w)
  | "OneHot" =>
      ((do
        let (axis, r) ← r.get_attr "axis" .int (some (.i (-1)))
        pure (some (.OneHotAttrs (axis.getD (.i (-1))).asInt), r)), g, w)
  | "ReduceL2" | "ReduceMax" | "ReduceMean" | "ReduceMin" | "ReduceProd"
  | "ReduceSum" =>
      ((do
        let (axes, r) ← r.get_attr "axes" .ints none
        let (kd, r) ← r.get_attr "keepdims" .int (some (.i 1))
        let r ← r.check_attr "noop_with_empty_axes" .int [.i 0]
        pure (some (.ReduceMeanAttrs (axes.map (·.asInts))
          (pyBool (kd.getD (.i 1)).asInt)), r)), g, w)
  | "Reshape" =>
      ((do
        let (az, r) ← r.get_attr "allowzero" .int (some (.i 0))
        pure (some (.ReshapeAttrs (pyBool (az.getD (.i 0)).asInt)), r)), g, w)
  | "Resize" =>
      ((do
        let (mode, r) ← r.get_enum_attr "mode" sg.ResizeMode "nearest"
        let r ← r.check_attr "antialias" .int [.i 0]
        let r ← r.check_attr "axes" .ints [.ints [2, 3]]
        let (coordMode, r) ← r.get_enum_attr "coordinate_transformation_mode"
          sg.CoordTransformMode "half_pixel"
        let r ← r.check_attr "cubic_coeff_a" .float [.f (-3 / 4)]
        let r ← r.check_attr "exclude_outside" .int [.i 0]
        let r ← r.check_attr "extrapolation_value" .float [.f 0]
        let r ← r.check_attr "keep_aspect_ratio_policy" .string [.s "stretch"]
        let (nearestMode, r) ← r.get_enum_attr "nearest_mode" sg.NearestMode
          "round_prefer_floor"
        pure (some (.ResizeAttrs mode coordMode nearestMode), r)), g, w)
  | "Pad" =>
      ((do
        let r ← r.check_attr "mode" .string [.s "constant"]
        pure (none, r)), g, w)
  | "ScatterElements" =>
      ((do
        let (axis, r) ← r.get_attr "axis" .int (some (.i 0))
        let (reduction, r) ← r.get_enum_attr "reduction" sg.ScatterReduction "none"
        pure (some (.ScatterElementsAttrs (axis.getD (.i 0)).asInt reduction),
          r)), g, w)
  | "ScatterND" =>
      ((do
        let (reduction, r) ← r.get_enum_attr "reduction" sg.ScatterReduction "none"
        pure (some (.ScatterNDAttrs reduction), r)), g, w)
  | "Shape" =>
      ((do
        let r ← r.check_attr "end" .int [.i 0]
        let r ← r.check_attr "start" .int [.i 0]
        pure (none, r)), g, w)
  | "Softmax" =>
      ((do
        let (axis, r) ← r.get_attr "axis" .int (some (.i 0))
        pure (some (.SoftmaxAttrs (axis.getD (.i 0)).asInt), r)), g, w)
  | "Split" =>
      (match (do
          let (axis, r) ← r.get_attr "axis" .int (some (.i 0))
          let r ← r.check_attr "num_outputs" .int [.i 0]
          pure ((axis.getD (.i 0)).asInt, r) :
            Except ConvError (Int × ONNXOperatorReader)) with
       | .error e => (.error e, g, w)
       | .ok (axis, r) =>
           match r.generate_input_from_attr 1 "split" .ints g with
           | .error e => (.error e, g, w)
           | .ok (r, g) => (.ok (some (.SplitAttrs axis), r), g, w))
  | "Squeeze" =>
      (match r.generate_input_from_attr 1 "axes" .ints g with
       | .error e => (.error e, g, w)
       | .ok (r, g) => (.ok (none, r), g, w))
  | "TopK" =>
      ((do
        let (axis, r) ← r.get_attr "axis" .int (some (.i (-1)))
        let (largest, r) ← r.get_attr "largest" .int (some (.i 1))
        let (sorted, r) ← r.get_attr "sorted" .int (some (.i 1))
        pure (some (.TopKAttrs (axis.getD (.i (-1))).asInt
          (pyBool (largest.getD (.i 1)).asInt)
          (pyBool (sorted.getD (.i 1)).asInt)), r)), g, w)
  | "Transpose" =>
      ((do
        let (perm, r) ← r.get_attr "perm" .ints (some (.ints []))
        pure (some (.TransposeAttrs (perm.getD (.ints [])).asInts), r)), g, w)
  | "Trilu" =>
      ((do
        let (upper, r) ← r.get_attr "upper" .int (some (.i 1))
        pure (some (.TriluAttrs (pyBool (upper.getD (.i 1)).asInt)), r)), g, w)
  | "Unsqueeze" =>
      (match r.generate_input_from_attr 1 "axes" .ints g with
       | .error e => (.error e, g, w)
       | .ok (r, g) => (.ok (none, r), g, w))
  | _ => (.ok (none, r), g, w)

/-- The operator input-resolution loop: an empty name is an omitted optional
input; a non-empty name must resolve through `tensor_map`. -/
def resolve_inputs (op : OnnxOp) (tensor_map : List (String × Nat)) :
    Except ConvError (List (Option Nat)) :=
  op.input.mapM (fun input_name =>
    if input_name ≠ "" then
      match tensor_map.lookup input_name with
      | none => .error (.unknownInput input_name op.name)
      | some index => .ok (some index)
    else
      .ok none)

/-- The operator output-resolution loop. -/
def resolve_outputs (op : OnnxOp) (tensor_map : List (String × Nat)) :
    Except ConvError (List (Option Nat)) :=
  op.output.mapM (fun output_name =>
    match tensor_map.lookup output_name with
    | none => .error (.unknownOutput output_name op.name)
    | some index => .ok (some index))

/-- The unhandled-attribute warning loop at the end of a translation. -/
def warn_unhandled (attrs : List AttributeProto) (op_type : String)
    (w : WarnState) : WarnState :=
  attrs.foldl (fun w a => warn_once (.unhandledAttr a.name op_type) w) w

/-- `op_node_from_onnx_operator`: resolve inputs and outputs, run the
per-operator attribute translation, check the operator is known to the
target schema, emit unhandled-attribute warnings, and assemble the node.
The source receives `tensor_map`/`constant_map`/`add_node` views of the one
graph under construction; here that graph state is passed whole. -/
def op_node_from_onnx_operator (op : OnnxOp) (g : GraphState) (w : WarnState) :
    Except ConvError OperatorNode × GraphState × WarnState :=
  match resolve_inputs op g.tensor_map with
  | .error e => (.error e, g, w)
  | .ok input_indexes =>
      match resolve_outputs op g.tensor_map with
      | .error e => (.error e, g, w)
      | .ok output_indexes =>
          let op_type := op.op_type
          -- `ONNXOperatorReader.__init__` copies `input_indexes`.
          let r : ONNXOperatorReader := ⟨op, input_indexes, []⟩
          match translate_op_attrs op_type r g w with
          | (.error e, g, w) => (.error e, g, w)
          | (.ok (attrs, r), g, w) =>
              if ¬ op_type ∈ sg.OperatorType then
                (.error (.unsupportedOperator op_type), g, w)
              else
                let w := warn_unhandled r.unhandled_attrs op.op_type w
                (.ok ⟨op.name, op_type, attrs, r.input_indexes, output_indexes⟩,
                 g, w)

/-- Phase 1 of `graph_from_onnx_graph`: register every initializer,
catching per-item failures (warn once, count, continue). -/
def run_initializers : List TensorProto → GraphState → Nat → WarnState →
    GraphState × Nat × WarnState
  | [], g, errs, w => (g, errs, w)
  | t :: ts, g, errs, w =>
      match constant_node_from_onnx_initializer t none w with
      | (.error e, w) =>
          run_initializers ts g (errs + 1) (warn_once (.initializerError e) w)
      | (.ok const_node, w) =>
          match add_node g (.constant const_node) with
          | .error e =>
              run_initializers ts g (errs + 1) (warn_once (.initializerError e) w)
          | .ok (_, g) => run_initializers ts g errs w

/-- Phase 2: register every `Constant` operator's output, same per-item
error policy. -/
def run_constant_ops : List OnnxOp → GraphState → Nat → WarnState →
    GraphState × Nat × WarnState
  | [], g, errs, w => (g, errs, w)
  | op :: ops, g, errs, w =>
      if op.op_type ≠ "Constant" then run_constant_ops ops g errs w
      else
        match constant_node_from_onnx_constant_op op w with
        | (.error e, w) =>
            run_constant_ops ops g (errs + 1) (warn_once (.constantOpError e) w)
        | (.ok const_node, w) =>
            match add_node g (.constant const_node) with
            | .error e =>
                run_constant_ops ops g (errs + 1) (warn_once (.constantOpError e) w)
            | .ok (_, g) => run_constant_ops ops g errs w

/-- Phase 3: register declared graph inputs, skipping names already present
(initializers shadow inputs).  No error is caught here; the skip guard makes
`add_node` collisions impossible, anything raised would propagate. -/
def run_graph_inputs : List ValueInfoProto → GraphState →
    Except ConvError GraphState
  | [], g => .ok g
  | v :: vs, g =>
      if (g.tensor_map.lookup v.name).isSome then run_graph_inputs vs g
      else
        match add_node g (.value (value_node_from_onnx_value v)) with
        | .error e => .error e
        | .ok (_, g) => run_graph_inputs vs g

/-- The per-operator output registration of phase 4 — outside the per-item
`try`, so a duplicate output name propagates and fails the whole run. -/
def register_outputs : List String → GraphState → Except ConvError GraphState
  | [], g => .ok g
  | output_name :: rest, g =>
      match add_node g (.value ⟨output_name, none⟩) with
      | .error e => .error e
      | .ok (_, g) => register_outputs rest g

/-- Phase 4: for each non-`Constant` operator, register its outputs
(uncaught), then translate and add the operator node (caught: print, count,
continue). -/
def run_operators : List OnnxOp → GraphState → Nat → WarnState →
    Except ConvError (GraphState × Nat) × WarnState
  | [], g, errs, w => (.ok (g, errs), w)
  | op :: ops, g, errs, w =>
      if op.op_type = "Constant" then run_operators ops g errs w
      else
        match register_outputs op.output g with
        | .error e => (.error e, w)
        | .ok g =>
            match op_node_from_onnx_operator op g w with
            | (.error e, g, w) =>
                run_operators ops g (errs + 1)
                  (print_err (.operatorError op.op_type op.name e) w)
            | (.ok op_node, g, w) =>
                match add_node g (.operator op_node) with
                | .error e =>
                    run_operators ops g (errs + 1)
                      (print_err (.operatorError op.op_type op.name e) w)
                | .ok (_, g) => run_operators ops g errs w

/-- The final `tensor_map[info.name]` resolution of model inputs/outputs
(a missing name is an uncaught KeyError). -/
def resolve_graph_io (vals : List ValueInfoProto) (tensor_map : List (String × Nat)) :
    Except ConvError (List Nat) :=
  vals.mapM (fun v =>
    match tensor_map.lookup v.name with
    | some index => .ok index
    | none => .error (.unknownGraphIoName v.name))

/-- `graph_from_onnx_graph`: the whole phased conversion.  The error-count
check sits after phases 1–2 (jointly) and again after phase 4, exactly as in
the source. -/
def graph_from_onnx_graph (og : OnnxGraph) (w : WarnState) :
    Except ConvError Graph × WarnState :=
  let (g, errs, w) := run_initializers og.initializer GraphState.empty 0 w
  let (g, errs, w) := run_constant_ops og.node g errs w
  if errs > 0 then (.error (.conversionFailed errs), w)
  else
    match run_graph_inputs og.input g with
    | .error e => (.error e, w)
    | .ok g =>
        match run_operators og.node g errs w with
        | (.error e, w) => (.error e, w)
        | (.ok (g, errs), w) =>
            if errs > 0 then (.error (.conversionFailed errs), w)
            else
              match resolve_graph_io og.input g.tensor_map with
              | .error e => (.error e, w)
              | .ok inputs =>
                  match resolve_graph_io og.output g.tensor_map with
                  | .error e => (.error e, w)
                  | .ok outputs => (.ok ⟨g.nodes, inputs, outputs⟩, w)

/-! The serializer (`write_graph` and the `build_*` helpers).  The
FlatBuffers builder is an external code-generated library (spec §1), so the
emitted buffer is modelled at the level of the fields the converter writes:
each `sg.XStart/XAdd/XEnd` sequence becomes a record of the added fields,
and vectors keep their element order (`write_vec` prepends the reversed
list, i.e. preserves order). -/

/-- A serialized `Dim` table: either a named symbolic dimension or a fixed
value. -/
inductive SDim where
  | named (name : String)
  | fixedDim (value : Int)
deriving DecidableEq, Repr

/-- Serialized constant-node payload: shape vector plus type-tagged data. -/
structure SConstantNode where
  shape : List Nat
  dataType : String
  data : List PyNum
deriving DecidableEq, Repr

/-- Serialized operator-node payload. -/
structure SOperatorNode where
  opTypeCode : Nat
  attrsType : String
  attrs : Option Attrs
  inputs : List Int
  outputs : List Int
deriving DecidableEq, Repr

/-- Serialized value-node payload: `none` when no shape vector field was
written at all, `some []` for a written zero-length vector. -/
structure SValueNode where
  shape : Option (List SDim)
deriving DecidableEq, Repr

inductive SPayload where
  | constant (c : SConstantNode)
  | operator (o : SOperatorNode)
  | value (v : SValueNode)
deriving DecidableEq, Repr

structure SNode where
  name : String
  payload : SPayload
deriving DecidableEq, Repr

structure SModel where
  schemaVersion : Nat
  nodes : List SNode
  inputs : List Nat
  outputs : List Nat
deriving DecidableEq, Repr

/-- `build_constant_node`: shape vector, then the flattened data under a
`FloatData`/`IntData` union tag. -/
def build_constant_node (constant : ConstantNode) :
    Except ConvError SConstantNode :=
  match constant.data.dtype with
  | .float32 => .ok ⟨constant.shape, "FloatData", constant.data.data⟩
  | .int32 => .ok ⟨constant.shape, "IntData", constant.data.data⟩
  | d => .error (.unsupportedDataArrayType d.name)

/-- `node_id` inside `build_operator_node`: absent input → -1. -/
def node_id (maybe_id : Option Nat) : Int :=
  match maybe_id with
  | none => -1
  | some i => i

/-- `getattr(sg.OperatorType, name)`: the enum constant is modelled as the
member's position in the schema's member table. -/
def operator_type_code (name : String) : Except ConvError Nat :=
  match sg.OperatorType.findIdx? (fun m => m = name) with
  | some i => .ok i
  | none => .error (.attributeErrorOperatorType name)

/-- `build_operator_node`. -/
def build_operator_node (operator : OperatorNode) :
    Except ConvError SOperatorNode := do
  let attrsType :=
    match operator.attrs with
    | some a => a.className
    | none => "NONE"
  let code ← operator_type_code operator.op_type
  .ok ⟨code, attrsType, operator.attrs,
    operator.inputs.map node_id, operator.outputs.map node_id⟩

/-- `write_dim` inside `build_value_node`. -/
def write_dim (dim : Dim) : SDim :=
  match dim with
  | .sym name => .named name
  | .fixed value => .fixedDim value

/-- `build_value_node`: `None` shape writes no shape field; any list —
including the empty one — writes a shape vector.  (The source guards with
`if shape_vec:` on the builder offset, which is positive for every vector
the external builder returns, the empty vector included.) -/
def build_value_node (value : ValueNode) : SValueNode :=
  ⟨value.shape.map (fun dims => dims.map write_dim)⟩

/-- The per-node dispatch of `write_graph`. -/
def build_node (node : Node) : Except ConvError SNode :=
  match node with
  | .constant c => do
      let payload ← build_constant_node c
      .ok ⟨c.name, .constant payload⟩
  | .operator o => do
      let payload ← build_operator_node o
      .ok ⟨o.name, .operator payload⟩
  | .value v => .ok ⟨v.name, .value (build_value_node v)⟩

/-- `write_graph`: nodes in graph order, then the input and output index
vectors, wrapped in the schema-version-1 model envelope. -/
def write_graph (graph : Graph) : Except ConvError SModel := do
  let nodes ← graph.nodes.mapM build_node
  .ok ⟨1, nodes, graph.inputs, graph.outputs⟩

/-! A reference-level model of the Python lists flowing through
`ONNXOperatorReader`, for the frame property of the translation: Python
lists are heap cells, `input_indexes.copy()` allocates a fresh cell, and the
reader mutates only its own cell.  The attribute logic is shared with the
pure embedding through `find_attr_value`. -/

/-- A heap of Python `list[int | None]` values, addressed by allocation
index. -/
abbrev ListHeap := List (List (Option Nat))

def hread (h : ListHeap) (ref : Nat) : List (Option Nat) := (h.get? ref).getD []

def hwrite (h : ListHeap) (ref : Nat) (v : List (Option Nat)) : ListHeap :=
  h.set ref v

/-- The reader with its `input_indexes` field as a heap reference. -/
structure ReaderRef where
  onnx_op : OnnxOp
  input_ref : Nat
  handled : List String
deriving DecidableEq, Repr

/-- `ONNXOperatorReader.__init__` at heap level: `self.input_indexes =
input_indexes.copy()` allocates a fresh cell holding a copy of the caller's
list. -/
def reader_init_heap (h : ListHeap) (op : OnnxOp) (caller_ref : Nat) :
    ListHeap × ReaderRef :=
  (h ++ [hread h caller_ref], ⟨op, h.length, []⟩)

/-- `get_attr` at heap level (it reads no list, so only `handled` moves). -/
def get_attr_heap (r : ReaderRef) (name : String) (expected : AttrType)
    (dflt : Option AttrValue) : Except ConvError (Option AttrValue × ReaderRef) := do
  let r := { r with handled := name :: r.handled }
  match ← find_attr_value r.onnx_op name expected with
  | some v => .ok (some v, r)
  | none => .ok (dflt, r)

/-- `generate_input_from_attr` at heap level: every list mutation
(`append` in the padding loop and the index assignment) targets the cell
`r.input_ref`. -/
def generate_input_from_attr_heap (r : ReaderRef) (input_index : Nat)
    (attr_name : String) (attr_type : AttrType) (h : ListHeap) (g : GraphState) :
    Except ConvError (ReaderRef × ListHeap × GraphState) := do
  let (av, r) ← get_attr_heap r attr_name attr_type none
  match av with
  | none => .ok (r, h, g)
  | some attr_val =>
      let input_indexes := hread h r.input_ref
      if input_index < input_indexes.length then
        .error (.conflictingAttributeAndInput attr_name input_index)
      else do
        let (shape, data) ←
          match attr_type with
          | .int =>
              pure (([] : List Nat),
                (⟨.int32, [], [.i (wrap32 attr_val.asInt)]⟩ : NDArray))
          | .float =>
              pure (([] : List Nat),
                (⟨.float32, [], [.f attr_val.asRat]⟩ : NDArray))
          | .ints =>
              pure (([attr_val.asInts.length] : List Nat),
                (⟨.int32, [1, attr_val.asInts.length],
                  attr_val.asInts.map (fun v => .i (wrap32 v))⟩ : NDArray))
          | _ => .error (.cannotGenerateInput attr_name)
        let generated_name := r.onnx_op.name ++ ":wasnn-" ++ attr_name
        let const_node ← ConstantNode.init generated_name shape data
        let (input_id, g) ← add_node g (.constant const_node)
        let padded := pad_to input_indexes (input_index + 1)
        .ok (r, hwrite h r.input_ref (padded.set input_index (some input_id)), g)

/-- Any sequence of attribute-to-input promotions performed by one
translation; an exception stops the sequence (the operator's translation
aborts), leaving the heap as it was at the failure point. -/
def run_promotions : List (Nat × String × AttrType) → ReaderRef → ListHeap →
    GraphState → ReaderRef × ListHeap × GraphState
  | [], r, h, g => (r, h, g)
  | (idx, name, ty) :: rest, r, h, g =>
      match generate_input_from_attr_heap r idx name ty h g with
      | .error _ => (r, h, g)
      | .ok (r, h, g) => run_promotions rest r h g

/-- The translated node's input list is read from the reader's own cell. -/
def op_inputs_heap (r : ReaderRef) (h : ListHeap) : List (Option Nat) :=
  hread h r.input_ref

/-! Predicates used by the theorems. -/

/-- The `ConstantNode` shape/data invariant. -/
def constInv (c : ConstantNode) : Prop := prodNat c.shape = c.data.size

/-- Lifted to arbitrary nodes. -/
def nodeInv : Node → Prop
  | .constant c => constInv c
  | _ => True

/-- Every constant in a graph state satisfies the invariant. -/
def GraphInv (g : GraphState) : Prop := ∀ n ∈ g.nodes, nodeInv n

/-- Each clamp warning appears in the log exactly once per membership of the
emitted set — the warn-channel invariant behind deduplication. -/
def ClampCountInv (w : WarnState) : Prop :=
  ∀ v, w.log.count (Msg.clamp v) = if Msg.clamp v ∈ w.emitted then 1 else 0

/-- How one graph node is encoded by one serialized node: same name, same
position-wise payload, operator index lists mapped through `node_id`
(absent → -1), constant payloads flattened verbatim, and the value-node
shape field present exactly when the node's shape is present (so an absent
shape and an empty shape vector stay distinguishable). -/
def node_encodes (n : Node) (s : SNode) : Prop :=
  s.name = n.name ∧
  match n, s.payload with
  | .constant c, .constant sc =>
      sc.shape = c.shape ∧ sc.data = c.data.data
  | .operator o, .operator so =>
      so.inputs = o.inputs.map node_id ∧ so.outputs = o.outputs.map node_id ∧
      so.attrs = o.attrs
  | .value v, .value sv =>
      (sv.shape = none ↔ v.shape = none) ∧ (v.shape = some [] → sv.shape = some [])
  | _, _ => False

/-! Concrete fixtures for counterexamples and witnesses. -/

/-- A model whose first phase fails once (float64 initializer) and whose
second phase fails once (`Constant` operator without outputs). -/
def c1_graph : OnnxGraph :=
  ⟨[⟨"a", [], .float64, [.f 0]⟩], [⟨"c", "Constant", [], [], []⟩], [], []⟩

/-- A model with a single failing initializer and nothing else. -/
def c1_graph_w : OnnxGraph := ⟨[⟨"a", [], .float64, [.f 0]⟩], [], [], []⟩

/-- A correctly shaped float64 buffer: the dtype check fails even though
`product(shape) == length(data)`. -/
def c2_data : NDArray := ⟨.float64, [], [.f 0]⟩

/-- A one-initializer model that converts successfully. -/
def c2_graph_w : OnnxGraph := ⟨[⟨"k", [1], .float32, [.f 0]⟩], [], [], []⟩

/-- An int64 tensor with one in-range and one out-of-range element. -/
def c3_tensor : TensorProto := ⟨"t", [2], .int64, [.i 5, .i 4000000000]⟩

/-- A model whose initializer name collides with an operator output name. -/
def c4_graph : OnnxGraph :=
  ⟨[⟨"x", [1], .float32, [.f 0]⟩], [⟨"op1", "Relu", ["x"], ["x"], []⟩], [], []⟩

def c4_state : GraphState := ⟨[.value ⟨"x", none⟩], [("x", 0)], []⟩

def c4_node : Node := .value ⟨"x", none⟩

/-- A reader whose operator already has inputs at indexes 0 and 1 while
also carrying a `min` attribute. -/
def c5_reader : ONNXOperatorReader :=
  ⟨⟨"op", "Clip", ["a", "b"], ["o"], [⟨"min", .f 1⟩]⟩, [some 0, some 1], []⟩

def c6_state : GraphState :=
  ⟨[.value ⟨"i0", none⟩, .value ⟨"o0", none⟩], [("i0", 0), ("o0", 1)], []⟩

def c6_op : OnnxOp := ⟨"clip1", "Clip", ["i0"], ["o0"], [⟨"min", .f 5⟩]⟩

/-- An enum table with no members at all. -/
def empty_enum : List (String × Int) := []

/-- A reader whose `mode` attribute is the empty string: it has no match in
any enum under either spelling. -/
def c7_reader : ONNXOperatorReader :=
  ⟨⟨"op", "Resize", [], [], [⟨"mode", .s ""⟩]⟩, [], []⟩

/-- A reader with an unrecognized (but well-formed) `mode` string. -/
def c7_reader_w : ONNXOperatorReader :=
  ⟨⟨"op", "Resize", [], [], [⟨"mode", .s "cubic"⟩]⟩, [], []⟩

/-- A `ConstantOfShape` value tensor of shape [1, 2]: `len(data) == 1` but
it holds two elements. -/
def c8_tensor : TensorProto := ⟨"tv", [1, 2], .int32, [.i 3, .i 4]⟩

def c8_reader : ONNXOperatorReader :=
  ⟨⟨"cos1", "ConstantOfShape", [], ["o0"], [⟨"value", .t c8_tensor⟩]⟩, [], []⟩

/-- A well-formed single-element `ConstantOfShape` value tensor. -/
def c8_tensor_w : TensorProto := ⟨"tv", [1], .int32, [.i 7]⟩

def c8_reader_w : ONNXOperatorReader :=
  ⟨⟨"cos1", "ConstantOfShape", [], ["o0"], [⟨"value", .t c8_tensor_w⟩]⟩, [], []⟩

/-- A tiny graph exercising empty shape, absent shape and an absent
operator input. -/
def c9_graph : Graph :=
  ⟨[.value ⟨"v", some []⟩, .value ⟨"w", none⟩,
    .operator ⟨"op", "Relu", none, [some 0, none], [some 1]⟩], [0], [1]⟩

/-- The serialized form of `c9_graph` (operator type code 57 is the
position of "Relu" in the schema's member table). -/
def c9_model : SModel :=
  ⟨1,
   [⟨"v", .value ⟨some []⟩⟩, ⟨"w", .value ⟨none⟩⟩,
    ⟨"op", .operator ⟨57, "NONE", none, [0, -1], [1]⟩⟩],
   [0], [1]⟩

def c10_heap : ListHeap := [[some 5]]

def c10_op : OnnxOp := ⟨"clip1", "Clip", ["i0"], ["o0"], [⟨"min", .f 5⟩]⟩

def c10_promos : List (Nat × String × AttrType) := [(1, "min", .float)]

/-! Helper lemmas. -/

theorem init_ok_elim {name : String} {shape : List Nat} {data : NDArray}
    {c : ConstantNode} (h : ConstantNode.init name shape data = .ok c) :
    c = ⟨name, shape, data⟩ ∧ prodNat shape = data.size ∧
      (data.dtype = .float32 ∨ data.dtype = .int32) := by
  unfold ConstantNode.init at h
  split at h
  · exact absurd h (by simp)
  · rename_i hsz
    split at h
    · rename_i hd
      refine ⟨by injection h with h; exact h.symm, by omega, Or.inl hd⟩
    · rename_i hd
      refine ⟨by injection h with h; exact h.symm, by omega, Or.inr hd⟩
    · exact absurd h (by simp)

theorem init_mismatch {name : String} {shape : List Nat} {data : NDArray}
    (h : prodNat shape ≠ data.size) :
    ConstantNode.init name shape data = .error (.shapeMismatch shape data.size name) := by
  unfold ConstantNode.init
  simp [h]

theorem init_good_dtype {name : String} {shape : List Nat} {data : NDArray}
    (h : prodNat shape = data.size)
    (hd : data.dtype = .float32 ∨ data.dtype = .int32) :
    ConstantNode.init name shape data = .ok ⟨name, shape, data⟩ := by
  unfold ConstantNode.init
  rcases hd with hd | hd <;> simp [h, hd]

theorem init_bad_dtype {name : String} {shape : List Nat} {data : NDArray}
    (h : prodNat shape = data.size)
    (hd : ¬(data.dtype = .float32 ∨ data.dtype = .int32)) :
    ConstantNode.init name shape data = .error (.unsupportedDType name data.dtype.name) := by
  unfold ConstantNode.init
  push_neg at hd
  rcases data with ⟨dt, s, d⟩
  cases dt <;> simp_all

theorem add_node_dup {g : GraphState} {node : Node}
    (h : (g.tensor_map.lookup node.name).isSome) :
    add_node g node = .error (.duplicateNodeName node.name) := by
  unfold add_node
  simp [h]

theorem add_node_ok_elim {g : GraphState} {node : Node} {i : Nat} {g' : GraphState}
    (h : add_node g node = .ok (i, g')) :
    g'.nodes = g.nodes ++ [node] ∧ i = g.nodes.length := by
  unfold add_node at h
  split at h
  · exact absurd h (by simp)
  · injection h with h
    obtain ⟨h1, h2⟩ := Prod.mk.injEq .. ▸ h
    subst h2
    simp [← h1]

theorem get_attr_ok_elim {r : ONNXOperatorReader} {n : String} {t : AttrType}
    {d v : Option AttrValue} {r' : ONNXOperatorReader}
    (h : r.get_attr n t d = .ok (v, r')) :
    r'.input_indexes = r.input_indexes ∧ r'.onnx_op = r.onnx_op := by
  unfold ONNXOperatorReader.get_attr at h
  cases hf : find_attr_value r.onnx_op n t with
  | error e => simp [hf, bind, Except.bind] at h
  | ok a =>
      cases a <;> simp [hf, bind, Except.bind] at h <;>
        simp [← h.2]

theorem normalizer_ok_dtype {t : TensorProto} {o : Option String} {w w' : WarnState}
    {c : ConstantNode}
    (h : constant_node_from_onnx_initializer t o w = (.ok c, w')) :
    c.data.dtype = .float32 ∨ c.data.dtype = .int32 := by
  unfold constant_node_from_onnx_initializer at h
  simp only [to_array] at h
  split at h <;> simp only [Prod.mk.injEq] at h
  · rename_i heq
    obtain ⟨hc, -, -⟩ := init_ok_elim h.1
    subst hc
    simp [heq]
  · rename_i heq
    obtain ⟨hc, -, -⟩ := init_ok_elim h.1
    subst hc
    simp [heq]
  · obtain ⟨hc, -, -⟩ := init_ok_elim h.1
    subst hc
    simp [NDArray.astypeI32]
  · obtain ⟨hc, -, -⟩ := init_ok_elim h.1
    subst hc
    simp [NDArray.astypeI32]
  · obtain ⟨hc, -, -⟩ := init_ok_elim h.1
    subst hc
    simp [NDArray.astypeI32]
  · obtain ⟨hc, -, -⟩ := init_ok_elim h.1
    subst hc
    simp [NDArray.clipAstypeI32]
  · exact absurd h.1 (by simp)

/-- Claim C5: if the attribute is present and an input already occupies the
target index (the source checks `input_index < len(input_indexes)`, which in
particular holds whenever an input sits at that index), promotion fails with
`ConflictingAttributeAndInput`. -/
theorem C5_promotion_conflict {r : ONNXOperatorReader} {g : GraphState}
    {input_index : Nat} {attr_name : String} {attr_type : AttrType}
    {v : AttrValue} {r' : ONNXOperatorReader}
    (hattr : r.get_attr attr_name attr_type none = .ok (some v, r'))
    (hocc : input_index < r.input_indexes.length) :
    r.generate_input_from_attr input_index attr_name attr_type g =
      .error (.conflictingAttributeAndInput attr_name input_index) := by
  have hii := (get_attr_ok_elim hattr).1
  unfold ONNXOperatorReader.generate_input_from_attr
  rw [hattr]
  simp [bind, Except.bind, hii, hocc]

theorem C5_promotion_conflict_witness :
    c5_reader.generate_input_from_attr 1 "min" .float GraphState.empty =
      .error (.conflictingAttributeAndInput "min" 1) :=
  @C5_promotion_conflict c5_reader GraphState.empty 1 "min" .float (.f 1)
    ⟨⟨"op", "Clip", ["a", "b"], ["o"], [⟨"min", .f 1⟩]⟩, [some 0, some 1], ["min"]⟩
    (by rfl) (by decide)

/-- Claim C7 (corrected): for a read attribute string whose Pascal-casing
succeeds, the value is looked up under the transformed spelling, then under
the keyword-escaped spelling with a trailing underscore, and the read fails
with `UnsupportedEnumValue` exactly when both lookups miss.  (Strings with
an empty underscore-separated word — the empty string, doubled, leading or
trailing underscores — instead abort the transform itself with an
IndexError; see the counterexample.) -/
theorem C7_enum_lookup_spec {r r' : ONNXOperatorReader}
    {name dflt val p : String} {enum : List (String × Int)}
    (hval : r.get_attr name .string (some (.s dflt)) = .ok (some (.s val), r'))
    (hp : snake_case_to_pascal_case val = .ok p) :
    (∀ c, enum.lookup p = some c →
      r.get_enum_attr name enum dflt = .ok (c, r')) ∧
    (∀ c, enum.lookup p = none → enum.lookup (p ++ "_") = some c →
      r.get_enum_attr name enum dflt = .ok (c, r')) ∧
    (enum.lookup p = none → enum.lookup (p ++ "_") = none →
      r.get_enum_attr name enum dflt = .error (.unsupportedEnumValue val name)) := by
  unfold ONNXOperatorReader.get_enum_attr
  rw [hval]
  refine ⟨fun c hc => ?_, fun c hc hesc => ?_, fun hc hesc => ?_⟩
  · simp [bind, Except.bind, Option.getD, AttrValue.asString, hp, hc]
  · simp [bind, Except.bind, Option.getD, AttrValue.asString, hp, hc, hesc]
  · simp [bind, Except.bind, Option.getD, AttrValue.asString, hp, hc, hesc]

/-- Claim C7 (counterexample): the empty attribute string has no match in
the empty enum under either spelling, yet the read fails with the
IndexError raised inside `snake_case_to_pascal_case`, not with
`UnsupportedEnumValue`. -/
theorem C7_enum_lookup_counterexample :
    c7_reader.get_enum_attr "mode" empty_enum "nearest" = .error .indexError ∧
    ConvError.indexError ≠ ConvError.unsupportedEnumValue "" "mode" := by
  refine ⟨by rfl, by decide⟩

theorem C7_enum_lookup_spec_witness :
    c7_reader_w.get_enum_attr "mode" sg.ResizeMode "nearest" =
      .error (.unsupportedEnumValue "cubic" "mode") :=
  (@C7_enum_lookup_spec c7_reader_w
    ⟨⟨"op", "Resize", [], [], [⟨"mode", .s "cubic"⟩]⟩, [], ["mode"]⟩
    "mode" "nearest" "cubic" "Cubic" sg.ResizeMode
    (by rfl) (by rfl)).2.2 (by rfl) (by rfl)

/-- Claim C8 (corrected): the `ConstantOfShape` check is `len(data) != 1`,
i.e. on the *first dimension* of the decoded value tensor, not on its
element count.  A tensor whose first dimension differs from 1 fails with
`InvalidScalarShape`; a 0-d tensor fails with the `len()` TypeError; a
tensor with first dimension 1 and exactly one element yields the
scalar-typed record (float or int per dtype); a tensor with first dimension
1 but more elements passes the check and fails only when `.item()` extracts
the scalar. -/
theorem C8_constant_of_shape_spec {r r' : ONNXOperatorReader} {tv : TensorProto}
    {cn : ConstantNode} {g : GraphState} {w w' : WarnState}
    (hreq : r.require_attr "value" .tensor = .ok (.t tv, r'))
    (hnorm : constant_node_from_onnx_initializer tv (some r'.onnx_op.name) w =
      (.ok cn, w')) :
    (cn.data.shape = [] →
      translate_op_attrs "ConstantOfShape" r g w =
        (.error .lenOfUnsizedObject, g, w')) ∧
    (∀ k rest, cn.data.shape = k :: rest → k ≠ 1 →
      translate_op_attrs "ConstantOfShape" r g w =
        (.error .invalidScalarShape, g, w')) ∧
    (∀ rest, cn.data.shape = 1 :: rest → cn.data.data.length ≠ 1 →
      translate_op_attrs "ConstantOfShape" r g w =
        (.error (.itemSizeError cn.data.data.length), g, w')) ∧
    (∀ rest x, cn.data.shape = 1 :: rest → cn.data.data = [x] →
      (cn.data.dtype = .float32 →
        translate_op_attrs "ConstantOfShape" r g w =
          (.ok (some (.ConstantOfShapeAttrs sg.Scalar_FloatScalar
            (.FloatScalarT x)), r'), g, w')) ∧
      (cn.data.dtype = .int32 →
        translate_op_attrs "ConstantOfShape" r g w =
          (.ok (some (.ConstantOfShapeAttrs sg.Scalar_IntScalar
            (.IntScalarT x)), r'), g, w'))) := by
  have hdt := normalizer_ok_dtype hnorm
  rcases cn with ⟨cname, cshape, ⟨dt, dsh, dd⟩⟩
  simp only at hdt
  refine ⟨fun hsh => ?_, fun k rest hsh hk => ?_, fun rest hsh hlen => ?_,
    fun rest x hsh hx => ⟨fun hf => ?_, fun hi => ?_⟩⟩ <;>
    subst hsh <;>
    unfold translate_op_attrs <;>
    simp only [hreq, AttrValue.asTensor, hnorm, NDArray.len]
  · simp [hk]
  · rcases hdt with hf | hi
    · subst hf
      match dd, hlen with
      | [], _ => rfl
      | [x], hl => exact absurd rfl hl
      | x :: y :: tl, _ => rfl
    · subst hi
      match dd, hlen with
      | [], _ => rfl
      | [x], hl => exact absurd rfl hl
      | x :: y :: tl, _ => rfl
  · subst hx hf
    rfl
  · subst hx hi
    rfl

/-- Claim C8 (counterexample): a `ConstantOfShape` value tensor of shape
[1, 2] decodes to two elements, yet translation does not fail with
`InvalidScalarShape` — `len(data) == 1` passes the check and the failure is
the later `.item()` size error. -/
theorem C8_constant_of_shape_counterexample :
    translate_op_attrs "ConstantOfShape" c8_reader GraphState.empty WarnState.empty =
      (.error (.itemSizeError 2), GraphState.empty, WarnState.empty) ∧
    c8_tensor.raw.length = 2 ∧
    ConvError.itemSizeError 2 ≠ ConvError.invalidScalarShape := by
  refine ⟨by rfl, by rfl, by decide⟩

theorem C8_constant_of_shape_spec_witness :
    translate_op_attrs "ConstantOfShape" c8_reader_w GraphState.empty WarnState.empty =
      (.ok (some (.ConstantOfShapeAttrs sg.Scalar_IntScalar (.IntScalarT (.i 7))),
        ⟨⟨"cos1", "ConstantOfShape", [], ["o0"], [⟨"value", .t c8_tensor_w⟩]⟩,
         [], ["value"]⟩),
       GraphState.empty, WarnState.empty) :=
  ((@C8_constant_of_shape_spec c8_reader_w
      ⟨⟨"cos1", "ConstantOfShape", [], ["o0"], [⟨"value", .t c8_tensor_w⟩]⟩,
        [], ["value"]⟩
      c8_tensor_w ⟨"tv", [1], ⟨.int32, [1], [.i 7]⟩⟩
      GraphState.empty WarnState.empty WarnState.empty
      (by rfl) (by rfl)).2.2.2 [] (.i 7) rfl rfl).2 rfl

theorem warn_once_emitted {m m' : Msg} {w : WarnState} :
    m ∈ (warn_once m' w).emitted ↔ m ∈ w.emitted ∨ m = m' := by
  unfold warn_once
  split
  · rename_i hm
    constructor
    · exact Or.inl
    · rintro (h | rfl)
      · exact h
      · exact hm
  · simp only [List.mem_cons]
    tauto

theorem warn_once_CCI {w : WarnState} (m' : Msg) (h : ClampCountInv w) :
    ClampCountInv (warn_once m' w) := by
  intro v
  unfold warn_once
  split
  · exact h v
  · rename_i hm
    simp only [List.count_append, List.mem_cons]
    rw [h v]
    by_cases hv : Msg.clamp v = m'
    · subst hv
      simp [hm]
    · simp [hv]

theorem warn_clamps_CCI {l : List PyNum} {w : WarnState} (h : ClampCountInv w) :
    ClampCountInv (warn_clamps l w) := by
  induction l generalizing w with
  | nil => exact h
  | cons x xs ih =>
      unfold warn_clamps at *
      exact ih (warn_once_CCI _ h)

theorem clamp_mem_warn_clamps {l : List PyNum} {w : WarnState} {v : PyNum} :
    Msg.clamp v ∈ (warn_clamps l w).emitted ↔
      Msg.clamp v ∈ w.emitted ∨ v ∈ l := by
  induction l generalizing w with
  | nil => simp [warn_clamps]
  | cons x xs ih =>
      unfold warn_clamps at *
      simp only [List.foldl_cons]
      rw [ih]
      rw [warn_once_emitted]
      simp [List.mem_cons]
      tauto

theorem clamp_mem_normalizer {t : TensorProto} {o : Option String}
    {w : WarnState} {v : PyNum} :
    Msg.clamp v ∈ (constant_node_from_onnx_initializer t o w).2.emitted ↔
      Msg.clamp v ∈ w.emitted ∨
        (t.dtype = .int64 ∧ v ∈ t.raw ∧ outOfRangeI32 v = true) := by
  rcases t with ⟨n, dims, dt, raw⟩
  cases dt <;>
    simp [constant_node_from_onnx_initializer, to_array, clamp_mem_warn_clamps,
      List.mem_filter]

theorem normalizer_CCI {t : TensorProto} {o : Option String} {w : WarnState}
    (h : ClampCountInv w) :
    ClampCountInv (constant_node_from_onnx_initializer t o w).2 := by
  rcases t with ⟨n, dims, dt, raw⟩
  cases dt <;> simp [constant_node_from_onnx_initializer, to_array] <;>
    first
    | exact h
    | exact warn_clamps_CCI h

theorem clamp_mem_run_initializers {ts : List TensorProto} {g : GraphState}
    {e : Nat} {w : WarnState} {v : PyNum} :
    Msg.clamp v ∈ (run_initializers ts g e w).2.2.emitted ↔
      Msg.clamp v ∈ w.emitted ∨
        ∃ t ∈ ts, t.dtype = .int64 ∧ v ∈ t.raw ∧ outOfRangeI32 v = true := by
  induction ts generalizing g e w with
  | nil => simp [run_initializers]
  | cons t ts ih =>
      unfold run_initializers
      have hw1 := clamp_mem_normalizer (t := t) (o := none) (w := w) (v := v)
      cases hn : constant_node_from_onnx_initializer t none w with
      | mk res w1 =>
          rw [hn] at hw1
          cases res with
          | error e' =>
              dsimp only
              rw [ih, warn_once_emitted]
              simp only [hw1]
              simp [List.mem_cons]
              tauto
          | ok cn =>
              dsimp only
              cases hadd : add_node g (.constant cn) with
              | error e' =>
                  dsimp only
                  rw [ih, warn_once_emitted]
                  simp only [hw1]
                  simp [List.mem_cons]
                  tauto
              | ok p =>
                  obtain ⟨i2, g2⟩ := p
                  dsimp only
                  rw [ih]
                  simp only [hw1]
                  simp [List.mem_cons]
                  tauto

theorem run_initializers_CCI {ts : List TensorProto} {g : GraphState}
    {e : Nat} {w : WarnState} (h : ClampCountInv w) :
    ClampCountInv (run_initializers ts g e w).2.2 := by
  induction ts generalizing g e w with
  | nil => exact h
  | cons t ts ih =>
      unfold run_initializers
      have h1 : ClampCountInv (constant_node_from_onnx_initializer t none w).2 :=
        normalizer_CCI h
      cases hn : constant_node_from_onnx_initializer t none w with
      | mk res w1 =>
          rw [hn] at h1
          cases res with
          | error e' => exact ih (warn_once_CCI _ h1)
          | ok cn =>
              dsimp only
              cases hadd : add_node g (.constant cn) with
              | error e' => exact ih (warn_once_CCI _ h1)
              | ok p =>
                  obtain ⟨i2, g2⟩ := p
                  exact ih h1

theorem normalizer_int64_ok {t : TensorProto} {w w' : WarnState}
    {c : ConstantNode} (ht : t.dtype = .int64)
    (h : constant_node_from_onnx_initializer t none w = (.ok c, w')) :
    c.data.data = t.raw.map clampI32 ∧ c.data.dtype = .int32 := by
  rcases t with ⟨n, dims, dt, raw⟩
  simp only at ht
  subst ht
  simp only [constant_node_from_onnx_initializer, to_array, Prod.mk.injEq] at h
  obtain ⟨hc, -, -⟩ := init_ok_elim h.1
  subst hc
  simp [NDArray.clipAstypeI32]

/-- Claim C3: for every int64 tensor the Constant Normalizer accepts, each
output element is the int32 clamp of the original, and across a whole
initializer-registration run started from the empty warning channel, each
distinct out-of-range value yields exactly one clamp warning in the log, no
matter how many times (or in how many tensors) it occurs. -/
theorem C3_int64_clamp_dedup :
    (∀ (t : TensorProto) (w w' : WarnState) (c : ConstantNode),
      t.dtype = .int64 →
      constant_node_from_onnx_initializer t none w = (.ok c, w') →
      c.data.data = t.raw.map clampI32 ∧ c.data.dtype = .int32) ∧
    (∀ (ts : List TensorProto) (v : PyNum),
      ((∃ t ∈ ts, t.dtype = .int64 ∧ v ∈ t.raw ∧ outOfRangeI32 v = true) →
        (run_initializers ts GraphState.empty 0 WarnState.empty).2.2.log.count
          (Msg.clamp v) = 1) ∧
      (¬ (∃ t ∈ ts, t.dtype = .int64 ∧ v ∈ t.raw ∧ outOfRangeI32 v = true) →
        (run_initializers ts GraphState.empty 0 WarnState.empty).2.2.log.count
          (Msg.clamp v) = 0)) := by
  constructor
  · intro t w w' c ht h
    exact normalizer_int64_ok ht h
  · intro ts v
    have hCCI : ClampCountInv (run_initializers ts GraphState.empty 0 WarnState.empty).2.2 :=
      run_initializers_CCI (by intro u; simp [WarnState.empty])
    have hmem := @clamp_mem_run_initializers ts GraphState.empty 0 WarnState.empty v
    simp only [WarnState.empty, List.not_mem_nil, false_or] at hmem
    constructor
    · intro hex
      rw [hCCI v]
      simp only [WarnState.empty]
      simp [hmem, hex]
    · intro hex
      rw [hCCI v]
      simp only [WarnState.empty]
      simp [hmem, hex]

theorem C3_int64_clamp_dedup_witness :
    ((⟨"t", [2], ⟨.int32, [2], [.i 5, .i 2147483647]⟩⟩ : ConstantNode).data.data =
        c3_tensor.raw.map clampI32 ∧
      (⟨"t", [2], ⟨.int32, [2], [.i 5, .i 2147483647]⟩⟩ : ConstantNode).data.dtype =
        .int32) ∧
    (run_initializers [c3_tensor] GraphState.empty 0 WarnState.empty).2.2.log.count
      (Msg.clamp (.i 4000000000)) = 1 :=
  ⟨C3_int64_clamp_dedup.1 c3_tensor WarnState.empty
      ⟨[.clamp (.i 4000000000)], [.clamp (.i 4000000000)]⟩
      ⟨"t", [2], ⟨.int32, [2], [.i 5, .i 2147483647]⟩⟩ (by rfl) (by rfl),
   (C3_int64_clamp_dedup.2 [c3_tensor] (.i 4000000000)).1 (by decide)⟩

/-- Claim C4: `add_node` rejects any node whose name is already mapped,
with `DuplicateNodeName`; end to end, a model whose initializer name
reappears as an operator output fails the whole run with that error (the
output registration sits outside the per-operator recovery). -/
theorem C4_duplicate_node_name :
    (∀ (g : GraphState) (node : Node),
      (g.tensor_map.lookup node.name).isSome →
      add_node g node = .error (.duplicateNodeName node.name)) ∧
    (graph_from_onnx_graph c4_graph WarnState.empty).1 =
      .error (.duplicateNodeName "x") :=
  ⟨fun _ _ h => add_node_dup h, by rfl⟩

theorem C4_duplicate_node_name_witness :
    add_node c4_state c4_node = .error (.duplicateNodeName "x") :=
  C4_duplicate_node_name.1 c4_state c4_node (by rfl)

theorem mapM_ok_forall2 {α β : Type} {f : α → Except ConvError β} :
    ∀ {l : List α} {l' : List β}, l.mapM f = .ok l' →
      List.Forall₂ (fun a b => f a = .ok b) l l' := by
  intro l
  induction l with
  | nil =>
      intro l' h
      simp only [List.mapM_nil, pure, Except.pure] at h
      injection h with h
      subst h
      exact .nil
  | cons a as ih =>
      intro l' h
      rw [List.mapM_cons] at h
      cases hfa : f a with
      | error e => rw [hfa] at h; simp [bind, Except.bind] at h
      | ok b =>
          rw [hfa] at h
          cases hms : as.mapM f with
          | error e => rw [hms] at h; simp [bind, Except.bind] at h
          | ok bs =>
              rw [hms] at h
              simp only [bind, Except.bind, pure, Except.pure] at h
              injection h with h
              subst h
              exact .cons hfa (ih hms)

theorem build_node_encodes {n : Node} {s : SNode} (h : build_node n = .ok s) :
    node_encodes n s := by
  cases n with
  | constant c =>
      unfold build_node at h
      dsimp only at h
      cases hb : build_constant_node c with
      | error e => rw [hb] at h; simp [bind, Except.bind] at h
      | ok sc =>
          rw [hb] at h
          simp only [bind, Except.bind] at h
          injection h with h
          subst h
          unfold build_constant_node at hb
          split at hb <;> simp at hb <;>
            exact ⟨rfl, by simp [← hb]⟩
  | operator o =>
      unfold build_node at h
      dsimp only at h
      cases hb : build_operator_node o with
      | error e => rw [hb] at h; simp [bind, Except.bind] at h
      | ok so =>
          rw [hb] at h
          simp only [bind, Except.bind] at h
          injection h with h
          subst h
          unfold build_operator_node at hb
          cases hc : operator_type_code o.op_type with
          | error e => rw [hc] at hb; simp [bind, Except.bind] at hb
          | ok code =>
              rw [hc] at hb
              simp only [bind, Except.bind] at hb
              injection hb with hb
              subst hb
              exact ⟨rfl, rfl, rfl, rfl⟩
  | value v =>
      unfold build_node at h
      dsimp only at h
      injection h with h
      subst h
      refine ⟨rfl, ?_, ?_⟩
      · simp [build_value_node, Option.map_eq_none']
      · intro hv
        simp [build_value_node, hv]

/-- Claim C9: serialization emits the node vector in construction order
with no reordering or deduplication (length-preserving, node-for-node), the
input/output index lists verbatim, absent operator inputs as -1 (through
`node_id`), and for value nodes an absent shape emits no shape field while
an empty shape emits an empty vector. -/
theorem C9_serialization_preserves {graph : Graph} {m : SModel}
    (h : write_graph graph = .ok m) :
    m.inputs = graph.inputs ∧ m.outputs = graph.outputs ∧
    m.nodes.length = graph.nodes.length ∧
    List.Forall₂ node_encodes graph.nodes m.nodes ∧
    node_id none = -1 := by
  unfold write_graph at h
  cases hm : graph.nodes.mapM build_node with
  | error e => rw [hm] at h; simp [bind, Except.bind] at h
  | ok ns =>
      rw [hm] at h
      simp only [bind, Except.bind] at h
      injection h with h
      subst h
      have hf := mapM_ok_forall2 hm
      refine ⟨rfl, rfl, hf.length_eq.symm, ?_, rfl⟩
      exact hf.imp (fun _ _ hab => build_node_encodes hab)

theorem C9_serialization_preserves_witness :
    c9_model.inputs = c9_graph.inputs ∧ c9_model.outputs = c9_graph.outputs ∧
    c9_model.nodes.length = c9_graph.nodes.length ∧
    List.Forall₂ node_encodes c9_graph.nodes c9_model.nodes ∧
    node_id none = -1 :=
  C9_serialization_preserves (by rfl)

theorem hread_append {h : ListHeap} {x : List (Option Nat)} {ref : Nat}
    (hr : ref < h.length) : hread (h ++ [x]) ref = hread h ref := by
  unfold hread
  rw [List.get?_append hr]

theorem hread_concat_length {h : ListHeap} {x : List (Option Nat)} :
    hread (h ++ [x]) h.length = x := by
  unfold hread
  rw [List.get?_concat_length]
  rfl

theorem hread_hwrite_ne {h : ListHeap} {ref ref' : Nat} {v : List (Option Nat)}
    (hne : ref' ≠ ref) : hread (hwrite h ref v) ref' = hread h ref' := by
  unfold hread hwrite
  rw [List.get?_set_ne _ _ (fun he => hne he.symm)]

theorem get_attr_heap_elim {r : ReaderRef} {name : String} {ty : AttrType}
    {d v : Option AttrValue} {r' : ReaderRef}
    (h : get_attr_heap r name ty d = .ok (v, r')) :
    r'.input_ref = r.input_ref ∧ r'.onnx_op = r.onnx_op := by
  unfold get_attr_heap at h
  cases hf : find_attr_value r.onnx_op name ty with
  | error e => simp [hf, bind, Except.bind] at h
  | ok a =>
      cases a <;> simp [hf, bind, Except.bind] at h <;> simp [← h.2]

theorem generate_heap_frame {r : ReaderRef} {idx : Nat} {name : String}
    {ty : AttrType} {h : ListHeap} {g : GraphState} {r' : ReaderRef}
    {h' : ListHeap} {g' : GraphState}
    (he : generate_input_from_attr_heap r idx name ty h g = .ok (r', h', g')) :
    r'.input_ref = r.input_ref ∧
    ∀ ref, ref ≠ r.input_ref → hread h' ref = hread h ref := by
  unfold generate_input_from_attr_heap at he
  cases hga : get_attr_heap r name ty none with
  | error e => rw [hga] at he; simp [bind, Except.bind] at he
  | ok p =>
      obtain ⟨av, r1⟩ := p
      have hr1 := get_attr_heap_elim hga
      rw [hga] at he
      simp only [bind, Except.bind] at he
      cases av with
      | none =>
          simp only [Except.ok.injEq, Prod.mk.injEq] at he
          obtain ⟨h1, h2, -⟩ := he
          subst h1
          subst h2
          exact ⟨hr1.1, fun _ _ => rfl⟩
      | some attr_val =>
          dsimp only at he
          split at he
          · exact absurd he (by simp)
          · repeat' split at he
            all_goals cases he
            all_goals rw [hr1.1]
            all_goals exact ⟨rfl, fun ref hne => hread_hwrite_ne hne⟩

theorem run_promotions_frame (promos : List (Nat × String × AttrType)) :
    ∀ {r : ReaderRef} {h : ListHeap} {g : GraphState},
      (run_promotions promos r h g).1.input_ref = r.input_ref ∧
      ∀ ref, ref ≠ r.input_ref →
        hread (run_promotions promos r h g).2.1 ref = hread h ref := by
  induction promos with
  | nil => exact fun {r h g} => ⟨rfl, fun _ _ => rfl⟩
  | cons p ps ih =>
      intro r h g
      obtain ⟨idx, nm, ty⟩ := p
      unfold run_promotions
      cases hg : generate_input_from_attr_heap r idx nm ty h g with
      | error e => exact ⟨rfl, fun _ _ => rfl⟩
      | ok q =>
          obtain ⟨r2, h2, g2⟩ := q
          have hf := generate_heap_frame hg
          dsimp only
          constructor
          · rw [(ih (r := r2) (h := h2) (g := g2)).1, hf.1]
          · intro ref hne
            rw [(ih (r := r2) (h := h2) (g := g2)).2 ref (by rw [hf.1]; exact hne),
              hf.2 ref hne]

/-- Claim C10: the reader copies the caller's resolved-input list at
construction (a fresh cell initialized to the caller's contents), any
sequence of attribute-to-input promotions mutates only the reader's own
cell — the caller's list reads back unchanged — and the translated
operator node takes its inputs from the reader's copy. -/
theorem C10_caller_inputs_unmutated (h : ListHeap) (op : OnnxOp) (caller : Nat)
    (promos : List (Nat × String × AttrType)) (g : GraphState)
    (hc : caller < h.length) :
    (reader_init_heap h op caller).2.input_ref ≠ caller ∧
    hread (reader_init_heap h op caller).1
        (reader_init_heap h op caller).2.input_ref =
      hread h caller ∧
    hread (run_promotions promos (reader_init_heap h op caller).2
        (reader_init_heap h op caller).1 g).2.1 caller =
      hread h caller ∧
    op_inputs_heap
        (run_promotions promos (reader_init_heap h op caller).2
          (reader_init_heap h op caller).1 g).1
        (run_promotions promos (reader_init_heap h op caller).2
          (reader_init_heap h op caller).1 g).2.1 =
      hread (run_promotions promos (reader_init_heap h op caller).2
          (reader_init_heap h op caller).1 g).2.1
        (reader_init_heap h op caller).2.input_ref := by
  have hfr := run_promotions_frame promos (r := (reader_init_heap h op caller).2)
    (h := (reader_init_heap h op caller).1) (g := g)
  refine ⟨?_, ?_, ?_, ?_⟩
  · exact Nat.ne_of_gt hc
  · exact hread_concat_length
  · rw [hfr.2 caller (Nat.ne_of_lt hc)]
    exact hread_append hc
  · unfold op_inputs_heap
    rw [hfr.1]

theorem C10_caller_inputs_unmutated_witness :
    (reader_init_heap c10_heap c10_op 0).2.input_ref ≠ 0 ∧
    hread (run_promotions c10_promos (reader_init_heap c10_heap c10_op 0).2
        (reader_init_heap c10_heap c10_op 0).1 GraphState.empty).2.1 0 =
      hread c10_heap 0 :=
  ⟨(C10_caller_inputs_unmutated c10_heap c10_op 0 c10_promos GraphState.empty
      (by decide)).1,
   (C10_caller_inputs_unmutated c10_heap c10_op 0 c10_promos GraphState.empty
      (by decide)).2.2.1⟩


/-- Claim C6: a `Clip` operator carrying a `min` float attribute and at most
one resolved input gains a synthesized scalar constant named
`<op>:wasnn-min`, registered in the graph (appended to the node list,
mapped by name, recorded as a constant), whose reference lands at input
position 1 after padding any missing earlier positions with absent
markers. -/
theorem C6_clip_min_promotion {op : OnnxOp} {g : GraphState} {w : WarnState}
    {v : Rat} {ins outs : List (Option Nat)}
    (htype : op.op_type = "Clip")
    (hattrs : op.attrList = [⟨"min", .f v⟩])
    (hres : resolve_inputs op g.tensor_map = .ok ins)
    (hlen : ins.length ≤ 1)
    (houts : resolve_outputs op g.tensor_map = .ok outs)
    (hfresh : g.tensor_map.lookup (op.name ++ ":wasnn-min") = none) :
    op_node_from_onnx_operator op g w =
      (.ok ⟨op.name, "Clip", none,
        (pad_to ins 2).set 1 (some g.nodes.length), outs⟩,
       ⟨g.nodes ++ [.constant ⟨op.name ++ ":wasnn-min", [], ⟨.float32, [], [.f v]⟩⟩],
        (op.name ++ ":wasnn-min", g.nodes.length) :: g.tensor_map,
        (op.name ++ ":wasnn-min",
          ⟨op.name ++ ":wasnn-min", [], ⟨.float32, [], [.f v]⟩⟩) :: g.constant_map⟩,
       w) := by
  have hname : op.name ++ ":wasnn-" ++ "min" = op.name ++ ":wasnn-min" := by
    rw [String.append_assoc]
    rfl
  rw [← hname] at hfresh ⊢
  have hga : (⟨op, ins, ([] : List String)⟩ : ONNXOperatorReader).get_attr
      "min" .float none = .ok (some (.f v), ⟨op, ins, ["min"]⟩) := by
    unfold ONNXOperatorReader.get_attr find_attr_value
    dsimp only
    rw [hattrs]
    simp [bind, Except.bind, AttrValue.type, value_fields]
  have hadd : add_node g
      (.constant ⟨op.name ++ ":wasnn-" ++ "min", [], ⟨.float32, [], [.f v]⟩⟩) =
      .ok (g.nodes.length,
        ⟨g.nodes ++ [.constant ⟨op.name ++ ":wasnn-" ++ "min", [], ⟨.float32, [], [.f v]⟩⟩],
         (op.name ++ ":wasnn-" ++ "min", g.nodes.length) :: g.tensor_map,
         (op.name ++ ":wasnn-" ++ "min",
           ⟨op.name ++ ":wasnn-" ++ "min", [], ⟨.float32, [], [.f v]⟩⟩) :: g.constant_map⟩) := by
    unfold add_node
    simp only [Node.name, hfresh]
    simp [List.length_append]
  have hgen1 : (⟨op, ins, ([] : List String)⟩ : ONNXOperatorReader).generate_input_from_attr
      1 "min" .float g =
      .ok (⟨op, (pad_to ins 2).set 1 (some g.nodes.length), ["min"]⟩,
        ⟨g.nodes ++ [.constant ⟨op.name ++ ":wasnn-" ++ "min", [], ⟨.float32, [], [.f v]⟩⟩],
         (op.name ++ ":wasnn-" ++ "min", g.nodes.length) :: g.tensor_map,
         (op.name ++ ":wasnn-" ++ "min",
           ⟨op.name ++ ":wasnn-" ++ "min", [], ⟨.float32, [], [.f v]⟩⟩) :: g.constant_map⟩) := by
    unfold ONNXOperatorReader.generate_input_from_attr
    rw [hga]
    simp only [bind, Except.bind]
    rw [if_neg (by omega : ¬ (1 : Nat) < ins.length)]
    simp only [AttrValue.asRat, bind, Except.bind, pure, Except.pure]
    rw [init_good_dtype (by rfl) (Or.inl rfl)]
    simp only [bind, Except.bind]
    rw [hadd]
  have hgen2 : (⟨op, (pad_to ins 2).set 1 (some g.nodes.length),
      ["min"]⟩ : ONNXOperatorReader).generate_input_from_attr 2 "max" .float
      ⟨g.nodes ++ [.constant ⟨op.name ++ ":wasnn-" ++ "min", [], ⟨.float32, [], [.f v]⟩⟩],
       (op.name ++ ":wasnn-" ++ "min", g.nodes.length) :: g.tensor_map,
       (op.name ++ ":wasnn-" ++ "min",
         ⟨op.name ++ ":wasnn-" ++ "min", [], ⟨.float32, [], [.f v]⟩⟩) :: g.constant_map⟩ =
      .ok (⟨op, (pad_to ins 2).set 1 (some g.nodes.length), ["max", "min"]⟩,
        ⟨g.nodes ++ [.constant ⟨op.name ++ ":wasnn-" ++ "min", [], ⟨.float32, [], [.f v]⟩⟩],
         (op.name ++ ":wasnn-" ++ "min", g.nodes.length) :: g.tensor_map,
         (op.name ++ ":wasnn-" ++ "min",
           ⟨op.name ++ ":wasnn-" ++ "min", [], ⟨.float32, [], [.f v]⟩⟩) :: g.constant_map⟩) := by
    unfold ONNXOperatorReader.generate_input_from_attr ONNXOperatorReader.get_attr
      find_attr_value
    dsimp only
    rw [hattrs]
    simp [bind, Except.bind]
  unfold op_node_from_onnx_operator
  rw [hres, houts, htype]
  dsimp only
  unfold translate_op_attrs
  simp only [hgen1, hgen2, warn_unhandled, ONNXOperatorReader.unhandled_attrs, hattrs]
  simp [htype]
  decide

theorem C6_clip_min_promotion_witness :
    op_node_from_onnx_operator c6_op c6_state WarnState.empty =
      (.ok ⟨"clip1", "Clip", none, [some 0, some 2], [some 1]⟩,
       ⟨[.value ⟨"i0", none⟩, .value ⟨"o0", none⟩,
         .constant ⟨"clip1:wasnn-min", [], ⟨.float32, [], [.f 5]⟩⟩],
        ("clip1:wasnn-min", 2) :: [("i0", 0), ("o0", 1)],
        [("clip1:wasnn-min", ⟨"clip1:wasnn-min", [], ⟨.float32, [], [.f 5]⟩⟩)]⟩,
       WarnState.empty) :=
  @C6_clip_min_promotion c6_op c6_state WarnState.empty 5 [some 0] [some 1]
    (by rfl) (by rfl) (by rfl) (by decide) (by rfl) (by rfl)

/-- Claim C1 (corrected): recoverable errors from the initializer phase and
the `Constant`-operator phase accumulate in one counter that is checked
once, after both phases — a positive combined count aborts with
`ConversionFailed(combined count)` before graph-input registration (so a
phase-1 error does not stop phase 2 from running, see the counterexample).
The graph-input phase accumulates no recoverable errors, and an
operator-translation phase ending with a positive count aborts with
`ConversionFailed(count)` before the final input/output resolution. -/
theorem C1_phase_error_abort (og : OnnxGraph) (w : WarnState) :
    (∀ p1 g2 c2 w2,
      run_initializers og.initializer GraphState.empty 0 w = p1 →
      run_constant_ops og.node p1.1 p1.2.1 p1.2.2 = (g2, c2, w2) →
      0 < c2 →
      graph_from_onnx_graph og w = (.error (.conversionFailed c2), w2)) ∧
    (∀ p1 g2 w2 g3 g4 c4 w4,
      run_initializers og.initializer GraphState.empty 0 w = p1 →
      run_constant_ops og.node p1.1 p1.2.1 p1.2.2 = (g2, 0, w2) →
      run_graph_inputs og.input g2 = .ok g3 →
      run_operators og.node g3 0 w2 = (.ok (g4, c4), w4) →
      0 < c4 →
      graph_from_onnx_graph og w = (.error (.conversionFailed c4), w4)) := by
  constructor
  · intro p1 g2 c2 w2 h1 h2 hpos
    obtain ⟨g1, c1, w1⟩ := p1
    unfold graph_from_onnx_graph
    rw [h1]
    dsimp only
    rw [h2]
    dsimp only
    rw [if_pos hpos]
  · intro p1 g2 w2 g3 g4 c4 w4 h1 h2 h3 h4 hpos
    obtain ⟨g1, c1, w1⟩ := p1
    unfold graph_from_onnx_graph
    rw [h1]
    dsimp only
    rw [h2]
    dsimp only
    rw [if_neg (by omega : ¬ (0 : Nat) > 0)]
    rw [h3]
    dsimp only
    rw [h4]
    dsimp only
    rw [if_pos hpos]

/-- Claim C1 (counterexample): the initializer phase of `c1_graph` ends with
one recoverable error, yet the run does not abort with
`ConversionFailed(1)` before the `Constant`-operator phase: that phase still
runs, contributes a second error, and the run aborts with
`ConversionFailed(2)`. -/
theorem C1_phase_error_abort_counterexample :
    (run_initializers c1_graph.initializer GraphState.empty 0 WarnState.empty).2.1
        = 1 ∧
    (graph_from_onnx_graph c1_graph WarnState.empty).1 =
      .error (.conversionFailed 2) :=
  ⟨by rfl, by rfl⟩

theorem C1_phase_error_abort_witness :
    graph_from_onnx_graph c1_graph_w WarnState.empty =
      (.error (.conversionFailed 1),
       ⟨[.initializerError (.unsupportedTensorType "float64" none)],
        [.initializerError (.unsupportedTensorType "float64" none)]⟩) :=
  (C1_phase_error_abort c1_graph_w WarnState.empty).1
    (GraphState.empty, 1,
      ⟨[.initializerError (.unsupportedTensorType "float64" none)],
       [.initializerError (.unsupportedTensorType "float64" none)]⟩)
    GraphState.empty 1
    ⟨[.initializerError (.unsupportedTensorType "float64" none)],
     [.initializerError (.unsupportedTensorType "float64" none)]⟩
    (by rfl) (by rfl) (by decide)

theorem init_ok_inv {name : String} {shape : List Nat} {data : NDArray}
    {c : ConstantNode} (h : ConstantNode.init name shape data = .ok c) :
    constInv c := by
  obtain ⟨hc, hsz, -⟩ := init_ok_elim h
  subst hc
  exact hsz

theorem add_node_ok_inv {g : GraphState} {n : Node} {i : Nat} {g' : GraphState}
    (hg : GraphInv g) (hn : nodeInv n) (h : add_node g n = .ok (i, g')) :
    GraphInv g' := by
  obtain ⟨hnodes, -⟩ := add_node_ok_elim h
  intro m hm
  rw [hnodes] at hm
  rcases List.mem_append.mp hm with hm | hm
  · exact hg m hm
  · simp only [List.mem_singleton] at hm
    subst hm
    exact hn

theorem normalizer_ok_inv {t : TensorProto} {o : Option String} {w w' : WarnState}
    {c : ConstantNode} (h : constant_node_from_onnx_initializer t o w = (.ok c, w')) :
    constInv c := by
  unfold constant_node_from_onnx_initializer at h
  simp only [to_array] at h
  split at h <;> simp only [Prod.mk.injEq] at h
  all_goals first
    | exact init_ok_inv h.1
    | exact absurd h.1 (by simp)

theorem constant_op_ok_inv {op : OnnxOp} {w w' : WarnState} {c : ConstantNode}
    (h : constant_node_from_onnx_constant_op op w = (.ok c, w')) : constInv c := by
  unfold constant_node_from_onnx_constant_op at h
  split at h
  · exact absurd h (by simp)
  · dsimp only at h
    split at h
    · exact absurd h (by simp)
    · split at h
      · exact absurd h (by simp)
      · rename_i heq
        simp only [Prod.mk.injEq] at h
        obtain ⟨h1, -⟩ := h
        injection h1 with h1
        subst h1
        have h2 := normalizer_ok_inv heq
        simpa [constInv] using h2

theorem generate_ok_inv {r : ONNXOperatorReader} {idx : Nat} {name : String}
    {ty : AttrType} {g : GraphState} {r' : ONNXOperatorReader} {g' : GraphState}
    (hg : GraphInv g)
    (h : r.generate_input_from_attr idx name ty g = .ok (r', g')) : GraphInv g' := by
  unfold ONNXOperatorReader.generate_input_from_attr at h
  cases hga : r.get_attr name ty none with
  | error e => rw [hga] at h; simp [bind, Except.bind] at h
  | ok p =>
      obtain ⟨av, r1⟩ := p
      rw [hga] at h
      simp only [bind, Except.bind] at h
      cases av with
      | none =>
          dsimp only at h
          cases h
          exact hg
      | some attr_val =>
          dsimp only at h
          split at h
          · exact absurd h (by simp)
          · repeat' split at h
            all_goals cases h
            all_goals rename_i hinit xadd addval hadd
            all_goals refine add_node_ok_inv hg ?_ hadd
            all_goals exact init_ok_inv hinit

theorem translate_op_attrs_inv (ot : String) (r : ONNXOperatorReader)
    (g : GraphState) (w : WarnState) (hg : GraphInv g) :
    GraphInv (translate_op_attrs ot r g w).2.1 := by
  unfold translate_op_attrs
  split
  all_goals try exact hg
  · cases h1 : r.generate_input_from_attr 1 "min" .float g with
    | error e => simp only [h1]; exact hg
    | ok p =>
        obtain ⟨r1, g1⟩ := p
        have hg1 := generate_ok_inv hg h1
        simp only [h1]
        cases h2 : r1.generate_input_from_attr 2 "max" .float g1 with
        | error e => simp only [h2]; exact hg1
        | ok p2 =>
            obtain ⟨r2, g2⟩ := p2
            simp only [h2]
            exact generate_ok_inv hg1 h2
  · repeat' split
    all_goals exact hg
  · split
    · exact hg
    · rename_i axis r1 heq1
      cases h1 : r1.generate_input_from_attr 1 "split" .ints g with
      | error e => simp only [h1]; exact hg
      | ok p2 =>
          obtain ⟨r2, g2⟩ := p2
          simp only [h1]
          exact generate_ok_inv hg h1
  · cases h1 : r.generate_input_from_attr 1 "axes" .ints g with
    | error e => simp only [h1]; exact hg
    | ok p =>
        obtain ⟨r1, g1⟩ := p
        simp only [h1]
        exact generate_ok_inv hg h1
  · cases h1 : r.generate_input_from_attr 1 "axes" .ints g with
    | error e => simp only [h1]; exact hg
    | ok p =>
        obtain ⟨r1, g1⟩ := p
        simp only [h1]
        exact generate_ok_inv hg h1

theorem op_node_from_onnx_operator_inv {op : OnnxOp} {g : GraphState}
    {w : WarnState} (hg : GraphInv g) :
    GraphInv (op_node_from_onnx_operator op g w).2.1 := by
  unfold op_node_from_onnx_operator
  cases hri : resolve_inputs op g.tensor_map with
  | error e => simp only [hri]; exact hg
  | ok ins =>
      simp only [hri]
      cases hro : resolve_outputs op g.tensor_map with
      | error e => simp only [hro]; exact hg
      | ok outs =>
          simp only [hro]
          try dsimp only
          have ht := translate_op_attrs_inv op.op_type ⟨op, ins, []⟩ g w hg
          rcases htr : translate_op_attrs op.op_type ⟨op, ins, []⟩ g w with ⟨res, g1, w1⟩
          rw [htr] at ht
          try simp only [htr]
          cases res with
          | error e => exact ht
          | ok p =>
              obtain ⟨attrs, r2⟩ := p
              dsimp only
              split
              · exact ht
              · exact ht

theorem register_outputs_inv : ∀ (outs : List String) {g g' : GraphState},
    GraphInv g → register_outputs outs g = .ok g' → GraphInv g' := by
  intro outs
  induction outs with
  | nil =>
      intro g g' hg h
      unfold register_outputs at h
      injection h with h
      subst h
      exact hg
  | cons o os ih =>
      intro g g' hg h
      unfold register_outputs at h
      cases hadd : add_node g (.value ⟨o, none⟩) with
      | error e => rw [hadd] at h; simp at h
      | ok p =>
          obtain ⟨i, g1⟩ := p
          rw [hadd] at h
          dsimp only at h
          refine ih ?_ h
          refine add_node_ok_inv hg ?_ hadd
          trivial

theorem run_graph_inputs_inv : ∀ (vs : List ValueInfoProto) {g g' : GraphState},
    GraphInv g → run_graph_inputs vs g = .ok g' → GraphInv g' := by
  intro vs
  induction vs with
  | nil =>
      intro g g' hg h
      unfold run_graph_inputs at h
      injection h with h
      subst h
      exact hg
  | cons v rest ih =>
      intro g g' hg h
      unfold run_graph_inputs at h
      split at h
      · exact ih hg h
      · cases hadd : add_node g (.value (value_node_from_onnx_value v)) with
        | error e => rw [hadd] at h; simp at h
        | ok p =>
            obtain ⟨i, g1⟩ := p
            rw [hadd] at h
            dsimp only at h
            refine ih ?_ h
            refine add_node_ok_inv hg ?_ hadd
            trivial

theorem run_initializers_inv : ∀ (ts : List TensorProto) {g : GraphState}
    {e : Nat} {w : WarnState}, GraphInv g →
    GraphInv (run_initializers ts g e w).1 := by
  intro ts
  induction ts with
  | nil => intro g e w hg; exact hg
  | cons t rest ih =>
      intro g e w hg
      unfold run_initializers
      cases hn : constant_node_from_onnx_initializer t none w with
      | mk res w1 =>
          cases res with
          | error e' => exact ih hg
          | ok cn =>
              dsimp only
              cases hadd : add_node g (.constant cn) with
              | error e' => exact ih hg
              | ok p =>
                  obtain ⟨i, g1⟩ := p
                  refine ih ?_
                  refine add_node_ok_inv hg ?_ hadd
                  exact normalizer_ok_inv hn

theorem run_constant_ops_inv : ∀ (ops : List OnnxOp) {g : GraphState}
    {e : Nat} {w : WarnState}, GraphInv g →
    GraphInv (run_constant_ops ops g e w).1 := by
  intro ops
  induction ops with
  | nil => intro g e w hg; exact hg
  | cons op rest ih =>
      intro g e w hg
      unfold run_constant_ops
      split
      · exact ih hg
      · cases hn : constant_node_from_onnx_constant_op op w with
        | mk res w1 =>
            cases res with
            | error e' => exact ih hg
            | ok cn =>
                dsimp only
                cases hadd : add_node g (.constant cn) with
                | error e' => exact ih hg
                | ok p =>
                    obtain ⟨i, g1⟩ := p
                    refine ih ?_
                    refine add_node_ok_inv hg ?_ hadd
                    exact constant_op_ok_inv hn

theorem run_operators_inv : ∀ (ops : List OnnxOp) {g : GraphState} {e : Nat}
    {w : WarnState} {g4 : GraphState} {c4 : Nat} {w4 : WarnState},
    GraphInv g → run_operators ops g e w = (.ok (g4, c4), w4) → GraphInv g4 := by
  intro ops
  induction ops with
  | nil =>
      intro g e w g4 c4 w4 hg h
      unfold run_operators at h
      simp only [Prod.mk.injEq, Except.ok.injEq] at h
      obtain ⟨⟨h1, -⟩, -⟩ := h
      subst h1
      exact hg
  | cons op rest ih =>
      intro g e w g4 c4 w4 hg h
      unfold run_operators at h
      split at h
      · exact ih hg h
      · cases hro : register_outputs op.output g with
        | error e' => rw [hro] at h; simp at h
        | ok g1 =>
            rw [hro] at h
            dsimp only at h
            have hg1 := register_outputs_inv op.output hg hro
            have hop := @op_node_from_onnx_operator_inv op g1 w hg1
            rcases htr : op_node_from_onnx_operator op g1 w with ⟨res, g2, w2⟩
            rw [htr] at h hop
            dsimp only at h hop
            cases res with
            | error e' => exact ih hop h
            | ok node =>
                dsimp only at h
                cases hadd : add_node g2 (.operator node) with
                | error e' =>
                    rw [hadd] at h
                    dsimp only at h
                    exact ih hop h
                | ok p =>
                    obtain ⟨i, g3⟩ := p
                    rw [hadd] at h
                    dsimp only at h
                    refine ih ?_ h
                    refine add_node_ok_inv hop ?_ hadd
                    trivial

theorem graph_empty_inv : GraphInv GraphState.empty := by
  intro n hn
  simp [GraphState.empty] at hn

theorem graph_from_onnx_graph_inv {og : OnnxGraph} {w w' : WarnState} {G : Graph}
    (h : graph_from_onnx_graph og w = (.ok G, w')) :
    ∀ c, Node.constant c ∈ G.nodes → constInv c := by
  unfold graph_from_onnx_graph at h
  rcases h1 : run_initializers og.initializer GraphState.empty 0 w with ⟨g1, c1, w1⟩
  rw [h1] at h
  try dsimp only at h
  rcases h2 : run_constant_ops og.node g1 c1 w1 with ⟨g2, c2, w2⟩
  rw [h2] at h
  try dsimp only at h
  split at h
  · exact absurd h (by simp)
  · cases h3 : run_graph_inputs og.input g2 with
    | error e => rw [h3] at h; simp at h
    | ok g3 =>
        rw [h3] at h
        try dsimp only at h
        rcases h4 : run_operators og.node g3 c2 w2 with ⟨res4, w4⟩
        rw [h4] at h
        try dsimp only at h
        cases res4 with
        | error e => simp at h
        | ok p =>
            obtain ⟨g4, c4⟩ := p
            try dsimp only at h
            split at h
            · exact absurd h (by simp)
            · have hg1 : GraphInv g1 := by
                have := run_initializers_inv og.initializer
                  (g := GraphState.empty) (e := 0) (w := w) graph_empty_inv
                rw [h1] at this
                exact this
              have hg2 : GraphInv g2 := by
                have := run_constant_ops_inv og.node (g := g1) (e := c1) (w := w1) hg1
                rw [h2] at this
                exact this
              have hg3 : GraphInv g3 := run_graph_inputs_inv og.input hg2 h3
              have hg4 : GraphInv g4 := run_operators_inv og.node hg3 h4
              cases h5 : resolve_graph_io og.input g4.tensor_map with
              | error e => rw [h5] at h; simp at h
              | ok ins =>
                  rw [h5] at h
                  try dsimp only at h
                  cases h6 : resolve_graph_io og.output g4.tensor_map with
                  | error e => rw [h6] at h; simp at h
                  | ok outs =>
                      rw [h6] at h
                      simp only [Prod.mk.injEq, Except.ok.injEq] at h
                      obtain ⟨hG, -⟩ := h
                      subst hG
                      intro c hc
                      exact hg4 (.constant c) hc

/-- Claim C2 (corrected): construction checks the shape product against the
data length first — a mismatch always fails with `ShapeMismatch`, and a
match makes construction succeed *when the dtype is serializable* (float32
or int32) while an unsupported dtype fails with an unsupported-data-type
error even though the shape invariant holds (see the counterexample).
Every successfully constructed node, and hence every `ConstantNode` in a
successfully converted graph, satisfies `product(shape) == length(data)`. -/
theorem C2_shape_invariant :
    (∀ (name : String) (shape : List Nat) (data : NDArray),
      (prodNat shape ≠ data.size →
        ConstantNode.init name shape data =
          .error (.shapeMismatch shape data.size name)) ∧
      (prodNat shape = data.size →
        (data.dtype = .float32 ∨ data.dtype = .int32 →
          ConstantNode.init name shape data = .ok ⟨name, shape, data⟩) ∧
        (¬(data.dtype = .float32 ∨ data.dtype = .int32) →
          ConstantNode.init name shape data =
            .error (.unsupportedDType name data.dtype.name))) ∧
      (∀ c, ConstantNode.init name shape data = .ok c →
        prodNat c.shape = c.data.size)) ∧
    (∀ (og : OnnxGraph) (w w' : WarnState) (G : Graph),
      graph_from_onnx_graph og w = (.ok G, w') →
      ∀ c, Node.constant c ∈ G.nodes → prodNat c.shape = c.data.size) := by
  constructor
  · intro name shape data
    exact ⟨init_mismatch, fun h => ⟨init_good_dtype h, init_bad_dtype h⟩,
      fun c hc => init_ok_inv hc⟩
  · intro og w w' G h c hc
    exact graph_from_onnx_graph_inv h c hc

/-- Claim C2 (counterexample): a float64 buffer whose shape product equals
its length — construction neither succeeds nor fails with `ShapeMismatch`;
it fails with the unsupported-data-type error. -/
theorem C2_shape_invariant_counterexample :
    prodNat [] = c2_data.size ∧
    ConstantNode.init "n" [] c2_data = .error (.unsupportedDType "n" "float64") :=
  ⟨by rfl, by rfl⟩

theorem C2_shape_invariant_witness :
    ConstantNode.init "n" [2] ⟨.float32, [2], [.f 1, .f 2]⟩ =
      .ok ⟨"n", [2], ⟨.float32, [2], [.f 1, .f 2]⟩⟩ ∧
    ConstantNode.init "n" [3] ⟨.float32, [2], [.f 1, .f 2]⟩ =
      .error (.shapeMismatch [3] 2 "n") ∧
    prodNat (⟨"k", [1], ⟨.float32, [1], [.f 0]⟩⟩ : ConstantNode).shape =
      (⟨"k", [1], ⟨.float32, [1], [.f 0]⟩⟩ : ConstantNode).data.size :=
  ⟨((C2_shape_invariant.1 "n" [2] ⟨.float32, [2], [.f 1, .f 2]⟩).2.1
      (by rfl)).1 (Or.inl rfl),
   (C2_shape_invariant.1 "n" [3] ⟨.float32, [2], [.f 1, .f 2]⟩).1 (by decide),
   C2_shape_invariant.2 c2_graph_w WarnState.empty WarnState.empty
     ⟨[.constant ⟨"k", [1], ⟨.float32, [1], [.f 0]⟩⟩], [], []⟩ (by rfl)
     ⟨"k", [1], ⟨.float32, [1], [.f 0]⟩⟩ (by decide)⟩
